import Mathlib

/-!
Verification of the SPH fluid-simulator core (`ParticleSystem` in
`FINAL_VERSION.md`, `RigidBody.js`, stepping loop in `main.js`).
JavaScript floating-point numbers are modelled as real numbers; the flat
`Float32Array` particle slots and `THREE.Vector3` values are modelled by a
three-component real vector type.
-/

noncomputable section

open Real Filter Set Topology

/-- Three real components, modelling a `THREE.Vector3` or one slot of the
flat per-particle arrays (`positions[3i .. 3i+2]`, `velocities[3i .. 3i+2]`)
of `ParticleSystem`. -/
structure V3 where
  x : ℝ
  y : ℝ
  z : ℝ

namespace V3

/-- Componentwise sum (`THREE.Vector3.add`). -/
def add (a b : V3) : V3 := ⟨a.x + b.x, a.y + b.y, a.z + b.z⟩

/-- Componentwise difference (`THREE.Vector3.subVectors`). -/
def sub (a b : V3) : V3 := ⟨a.x - b.x, a.y - b.y, a.z - b.z⟩

/-- Scalar multiple (`THREE.Vector3.multiplyScalar`). -/
def smul (c : ℝ) (v : V3) : V3 := ⟨c * v.x, c * v.y, c * v.z⟩

/-- Dot product (`THREE.Vector3.dot`). -/
def dot (a b : V3) : ℝ := a.x * b.x + a.y * b.y + a.z * b.z

/-- Cross product (`THREE.Vector3.crossVectors`). -/
def cross (a b : V3) : V3 :=
  ⟨a.y * b.z - a.z * b.y, a.z * b.x - a.x * b.z, a.x * b.y - a.y * b.x⟩

/-- Euclidean norm (`THREE.Vector3.length`). -/
def length (v : V3) : ℝ := Real.sqrt (v.x * v.x + v.y * v.y + v.z * v.z)

/-- Unit vector in the same direction (`THREE.Vector3.normalize`, which
divides each component by the length). -/
def normalize (v : V3) : V3 := ⟨v.x / v.length, v.y / v.length, v.z / v.length⟩

/-- The zero vector. -/
def zero : V3 := ⟨0, 0, 0⟩

theorem length_nonneg (v : V3) : 0 ≤ v.length := Real.sqrt_nonneg _

theorem sq_length (v : V3) : v.length * v.length = v.x * v.x + v.y * v.y + v.z * v.z := by
  have h : 0 ≤ v.x * v.x + v.y * v.y + v.z * v.z := by
    nlinarith [mul_self_nonneg v.x, mul_self_nonneg v.y, mul_self_nonneg v.z]
  simpa [length] using Real.mul_self_sqrt h

theorem length_smul (c : ℝ) (v : V3) : (smul c v).length = |c| * v.length := by
  have h : 0 ≤ v.x * v.x + v.y * v.y + v.z * v.z := by
    nlinarith [mul_self_nonneg v.x, mul_self_nonneg v.y, mul_self_nonneg v.z]
  have : (c * v.x) * (c * v.x) + (c * v.y) * (c * v.y) + (c * v.z) * (c * v.z)
      = c ^ 2 * (v.x * v.x + v.y * v.y + v.z * v.z) := by ring
  simp only [length, smul, this]
  rw [Real.sqrt_mul (sq_nonneg c), Real.sqrt_sq_eq_abs]

end V3

/-! Section: SPH smoothing kernels (`ParticleSystem`, FINAL_VERSION.md lines 363–387) -/

/-- Source `ParticleSystem.poly6Kernel(r, h)`: density kernel,
`315/(64π h⁹)·(h²−r²)³` on `0 ≤ r ≤ h`, else `0`. -/
def poly6Kernel (r h : ℝ) : ℝ :=
  if 0 ≤ r ∧ r ≤ h then
    315 / (64 * π * h ^ 9) * ((h * h - r * r) * (h * h - r * r) * (h * h - r * r))
  else 0

/-- Source `ParticleSystem.spikyGradient(rx, ry, rz, h)`: pressure-gradient kernel;
for `0 < r ≤ h` (with `r = |(rx,ry,rz)|`) returns
`−45/(π h⁶)·(h−r)²/r · (rx,ry,rz)`, else the zero vector. -/
def spikyGradient (rx ry rz h : ℝ) : V3 :=
  let r := Real.sqrt (rx * rx + ry * ry + rz * rz)
  if 0 < r ∧ r ≤ h then
    let coef := -45 / (π * h ^ 6)
    let term := (h - r) * (h - r) / r
    ⟨coef * term * rx, coef * term * ry, coef * term * rz⟩
  else V3.zero

/-- Source `ParticleSystem.viscosityLaplacian(r, h)`: viscosity-Laplacian kernel,
`45/(π h⁶)·(h−r)` on `0 ≤ r ≤ h`, else `0`. -/
def viscosityLaplacian (r h : ℝ) : ℝ :=
  if 0 ≤ r ∧ r ≤ h then 45 / (π * h ^ 6) * (h - r) else 0

theorem poly6Kernel_nonneg (r h : ℝ) (hh : 0 < h) : 0 ≤ poly6Kernel r h := by
  unfold poly6Kernel
  split_ifs with hc
  · have h1 : 0 ≤ h * h - r * r := by nlinarith [hc.1, hc.2]
    have h2 : 0 < 64 * π * h ^ 9 := by positivity
    positivity
  · exact le_refl 0

theorem poly6Kernel_at_zero (h : ℝ) (hh : 0 < h) :
    poly6Kernel 0 h = 315 / (64 * π * h ^ 9) * (h * h * (h * h) * (h * h)) := by
  unfold poly6Kernel
  rw [if_pos ⟨le_refl 0, le_of_lt hh⟩]
  ring

theorem viscosityLaplacian_nonneg (r h : ℝ) (hh : 0 < h) : 0 ≤ viscosityLaplacian r h := by
  unfold viscosityLaplacian
  split_ifs with hc
  · have h2 : 0 < π * h ^ 6 := by positivity
    have h3 : 0 ≤ h - r := by linarith [hc.2]
    positivity
  · exact le_refl 0

theorem spikyGradient_ray (h t ux uy uz : ℝ) (hu : ux * ux + uy * uy + uz * uz = 1)
    (ht : 0 < t) (hth : t ≤ h) :
    spikyGradient (t * ux) (t * uy) (t * uz) h =
      ⟨-45 / (π * h ^ 6) * ((h - t) * (h - t)) * ux,
       -45 / (π * h ^ 6) * ((h - t) * (h - t)) * uy,
       -45 / (π * h ^ 6) * ((h - t) * (h - t)) * uz⟩ := by
  have hsq : (t * ux) * (t * ux) + (t * uy) * (t * uy) + (t * uz) * (t * uz) = t ^ 2 := by
    have e : (t * ux) * (t * ux) + (t * uy) * (t * uy) + (t * uz) * (t * uz)
        = t ^ 2 * (ux * ux + uy * uy + uz * uz) := by ring
    rw [e, hu, mul_one]
  have hr : Real.sqrt ((t * ux) * (t * ux) + (t * uy) * (t * uy) + (t * uz) * (t * uz)) = t := by
    rw [hsq, Real.sqrt_sq ht.le]
  simp only [spikyGradient, hr]
  rw [if_pos ⟨ht, hth⟩]
  have hh0 : h ≠ 0 := (lt_of_lt_of_le ht hth).ne'
  simp only [V3.mk.injEq]
  refine ⟨?_, ?_, ?_⟩ <;> (field_simp [ht.ne', hh0]; ring)

/-- C6: for every separation `r > h` the three SPH kernels
(`poly6Kernel`, `spikyGradient`, `viscosityLaplacian`) return `0` (resp. the
zero vector), each kernel's value at `r = h` is `0`, and each kernel's value
tends to `0` as the separation approaches `h` from below (along any unit
direction for the vector-valued `spikyGradient`), i.e. all three vanish
continuously at the edge of their support. -/
theorem kernels_compact_support_continuous_C6 (h : ℝ) (hh : 0 < h)
    (ux uy uz : ℝ) (hu : ux * ux + uy * uy + uz * uz = 1) :
    (∀ r, h < r → poly6Kernel r h = 0) ∧
    (∀ rx ry rz, h < Real.sqrt (rx * rx + ry * ry + rz * rz) →
      spikyGradient rx ry rz h = V3.zero) ∧
    (∀ r, h < r → viscosityLaplacian r h = 0) ∧
    poly6Kernel h h = 0 ∧
    viscosityLaplacian h h = 0 ∧
    spikyGradient (h * ux) (h * uy) (h * uz) h = V3.zero ∧
    Tendsto (fun r => poly6Kernel r h) (nhdsWithin h (Iio h)) (nhds 0) ∧
    Tendsto (fun r => viscosityLaplacian r h) (nhdsWithin h (Iio h)) (nhds 0) ∧
    Tendsto (fun t => (spikyGradient (t * ux) (t * uy) (t * uz) h).x)
      (nhdsWithin h (Iio h)) (nhds 0) ∧
    Tendsto (fun t => (spikyGradient (t * ux) (t * uy) (t * uz) h).y)
      (nhdsWithin h (Iio h)) (nhds 0) ∧
    Tendsto (fun t => (spikyGradient (t * ux) (t * uy) (t * uz) h).z)
      (nhdsWithin h (Iio h)) (nhds 0) := by
  have hmem : Ioo 0 h ∈ nhdsWithin h (Iio h) := Ioo_mem_nhdsWithin_Iio ⟨hh, le_refl h⟩
  have hray : ∀ t ∈ Ioo (0 : ℝ) h, spikyGradient (t * ux) (t * uy) (t * uz) h =
      ⟨-45 / (π * h ^ 6) * ((h - t) * (h - t)) * ux,
       -45 / (π * h ^ 6) * ((h - t) * (h - t)) * uy,
       -45 / (π * h ^ 6) * ((h - t) * (h - t)) * uz⟩ :=
    fun t htm => spikyGradient_ray h t ux uy uz hu htm.1 htm.2.le
  refine ⟨?_, ?_, ?_, ?_, ?_, ?_, ?_, ?_, ?_, ?_, ?_⟩
  · intro r hr
    unfold poly6Kernel
    rw [if_neg]
    rintro ⟨-, hb⟩; linarith
  · intro rx ry rz hr
    simp only [spikyGradient]
    rw [if_neg]
    rintro ⟨-, hb⟩; linarith
  · intro r hr
    unfold viscosityLaplacian
    rw [if_neg]
    rintro ⟨-, hb⟩; linarith
  · unfold poly6Kernel
    rw [if_pos ⟨hh.le, le_refl h⟩]
    ring
  · unfold viscosityLaplacian
    rw [if_pos ⟨hh.le, le_refl h⟩]
    ring
  · rw [spikyGradient_ray h h ux uy uz hu hh (le_refl h)]
    simp [V3.zero]
  · have heq : (fun r => poly6Kernel r h) =ᶠ[nhdsWithin h (Iio h)]
        (fun r => 315 / (64 * π * h ^ 9) * ((h * h - r * r) * (h * h - r * r) * (h * h - r * r))) := by
      filter_upwards [hmem] with r hr
      unfold poly6Kernel
      rw [if_pos ⟨hr.1.le, hr.2.le⟩]
    rw [Filter.tendsto_congr' heq]
    have hc : Continuous (fun r : ℝ =>
        315 / (64 * π * h ^ 9) * ((h * h - r * r) * (h * h - r * r) * (h * h - r * r))) := by
      continuity
    have := tendsto_nhdsWithin_of_tendsto_nhds (s := Iio h) (hc.tendsto h)
    simpa using this
  · have heq : (fun r => viscosityLaplacian r h) =ᶠ[nhdsWithin h (Iio h)]
        (fun r => 45 / (π * h ^ 6) * (h - r)) := by
      filter_upwards [hmem] with r hr
      unfold viscosityLaplacian
      rw [if_pos ⟨hr.1.le, hr.2.le⟩]
    rw [Filter.tendsto_congr' heq]
    have hc : Continuous (fun r : ℝ => 45 / (π * h ^ 6) * (h - r)) := by continuity
    have := tendsto_nhdsWithin_of_tendsto_nhds (s := Iio h) (hc.tendsto h)
    simpa using this
  · have heq : (fun t => (spikyGradient (t * ux) (t * uy) (t * uz) h).x) =ᶠ[nhdsWithin h (Iio h)]
        (fun t => -45 / (π * h ^ 6) * ((h - t) * (h - t)) * ux) := by
      filter_upwards [hmem] with t htm
      rw [hray t htm]
    rw [Filter.tendsto_congr' heq]
    have hc : Continuous (fun t : ℝ => -45 / (π * h ^ 6) * ((h - t) * (h - t)) * ux) := by
      continuity
    have := tendsto_nhdsWithin_of_tendsto_nhds (s := Iio h) (hc.tendsto h)
    simpa using this
  · have heq : (fun t => (spikyGradient (t * ux) (t * uy) (t * uz) h).y) =ᶠ[nhdsWithin h (Iio h)]
        (fun t => -45 / (π * h ^ 6) * ((h - t) * (h - t)) * uy) := by
      filter_upwards [hmem] with t htm
      rw [hray t htm]
    rw [Filter.tendsto_congr' heq]
    have hc : Continuous (fun t : ℝ => -45 / (π * h ^ 6) * ((h - t) * (h - t)) * uy) := by
      continuity
    have := tendsto_nhdsWithin_of_tendsto_nhds (s := Iio h) (hc.tendsto h)
    simpa using this
  · have heq : (fun t => (spikyGradient (t * ux) (t * uy) (t * uz) h).z) =ᶠ[nhdsWithin h (Iio h)]
        (fun t => -45 / (π * h ^ 6) * ((h - t) * (h - t)) * uz) := by
      filter_upwards [hmem] with t htm
      rw [hray t htm]
    rw [Filter.tendsto_congr' heq]
    have hc : Continuous (fun t : ℝ => -45 / (π * h ^ 6) * ((h - t) * (h - t)) * uz) := by
      continuity
    have := tendsto_nhdsWithin_of_tendsto_nhds (s := Iio h) (hc.tendsto h)
    simpa using this

/-- Witness for C6 at the concrete support radius `h = 1` and unit
direction `(1, 0, 0)`. -/
theorem kernels_compact_support_continuous_C6_witness :
    (0 : ℝ) < 1 ∧ (1 : ℝ) * 1 + 0 * 0 + 0 * 0 = 1 ∧
    ((∀ r, (1 : ℝ) < r → poly6Kernel r 1 = 0) ∧
    (∀ rx ry rz, (1 : ℝ) < Real.sqrt (rx * rx + ry * ry + rz * rz) →
      spikyGradient rx ry rz 1 = V3.zero) ∧
    (∀ r, (1 : ℝ) < r → viscosityLaplacian r 1 = 0) ∧
    poly6Kernel 1 1 = 0 ∧
    viscosityLaplacian 1 1 = 0 ∧
    spikyGradient (1 * 1) (1 * 0) (1 * 0) 1 = V3.zero ∧
    Tendsto (fun r => poly6Kernel r 1) (nhdsWithin 1 (Iio 1)) (nhds 0) ∧
    Tendsto (fun r => viscosityLaplacian r 1) (nhdsWithin 1 (Iio 1)) (nhds 0) ∧
    Tendsto (fun t => (spikyGradient (t * 1) (t * 0) (t * 0) 1).x)
      (nhdsWithin 1 (Iio 1)) (nhds 0) ∧
    Tendsto (fun t => (spikyGradient (t * 1) (t * 0) (t * 0) 1).y)
      (nhdsWithin 1 (Iio 1)) (nhds 0) ∧
    Tendsto (fun t => (spikyGradient (t * 1) (t * 0) (t * 0) 1).z)
      (nhdsWithin 1 (Iio 1)) (nhds 0)) :=
  ⟨one_pos, by norm_num,
    kernels_compact_support_continuous_C6 1 one_pos 1 0 0 (by norm_num)⟩

/-! Section: Density pass (`ParticleSystem.computeDensity`, FINAL_VERSION.md lines 390–420) -/

/-- One neighbour's contribution to the density sum of `computeDensity`:
`mass * poly6Kernel(r, h)` when the separation `r` is below `h`, else nothing. -/
def densityContrib (mass h : ℝ) (p q : V3) : ℝ :=
  if (V3.sub p q).length < h then mass * poly6Kernel ((V3.sub p q).length) h else 0

/-- Source `ParticleSystem.computeDensity` for the particle at position `p`:
the inner `j` loop runs over every particle position (including `p` itself). -/
def computeDensityAt (mass h : ℝ) (ps : List V3) (p : V3) : ℝ :=
  (ps.map fun q => densityContrib mass h p q).sum

/-! Section: Integration pass (`ParticleSystem.integrate`, FINAL_VERSION.md lines 493–520) -/

/-- The integration update of `ParticleSystem.integrate` for one particle:
particles with `density < 1.0` are skipped (left untouched), the rest get
semi-implicit Euler (`v += (force/density)·dt`, then `x += v·dt` with the
new velocity). Returns the `(position, velocity)` pair. -/
def integrateParticle (dt density : ℝ) (f p v : V3) : V3 × V3 :=
  if density < 1 then (p, v)
  else
    let ax := f.x / density
    let ay := f.y / density
    let az := f.z / density
    let v' : V3 := ⟨v.x + ax * dt, v.y + ay * dt, v.z + az * dt⟩
    let p' : V3 := ⟨p.x + v'.x * dt, p.y + v'.y * dt, p.z + v'.z * dt⟩
    (p', v')

/-- C7: a particle with density at or above the floor `1.0` is integrated by
semi-implicit Euler (velocity first, position with the updated velocity); a
particle below the floor is left with position and velocity unchanged (no
error is raised — the function is total). -/
theorem integrate_euler_or_skip_C7 (dt density : ℝ) (f p v : V3) :
    (1 ≤ density → integrateParticle dt density f p v =
      (⟨p.x + (v.x + f.x / density * dt) * dt,
        p.y + (v.y + f.y / density * dt) * dt,
        p.z + (v.z + f.z / density * dt) * dt⟩,
       ⟨v.x + f.x / density * dt, v.y + f.y / density * dt, v.z + f.z / density * dt⟩)) ∧
    (density < 1 → integrateParticle dt density f p v = (p, v)) := by
  constructor
  · intro hd
    unfold integrateParticle
    rw [if_neg (not_lt.mpr hd)]
  · intro hd
    unfold integrateParticle
    rw [if_pos hd]

/-- Witness for C7: both branches at concrete inputs (density `2` integrates,
density `1/2` is skipped). -/
theorem integrate_euler_or_skip_C7_witness :
    ((1 : ℝ) ≤ 2 ∧ integrateParticle 1 2 ⟨2, 0, 0⟩ ⟨0, 0, 0⟩ ⟨0, 0, 0⟩ =
      (⟨0 + (0 + 2 / 2 * 1) * 1, 0 + (0 + 0 / 2 * 1) * 1, 0 + (0 + 0 / 2 * 1) * 1⟩,
       ⟨0 + 2 / 2 * 1, 0 + 0 / 2 * 1, 0 + 0 / 2 * 1⟩)) ∧
    ((1 / 2 : ℝ) < 1 ∧ integrateParticle 1 (1 / 2) ⟨2, 0, 0⟩ ⟨3, 4, 5⟩ ⟨6, 7, 8⟩ =
      (⟨3, 4, 5⟩, ⟨6, 7, 8⟩)) :=
  ⟨⟨by norm_num, (integrate_euler_or_skip_C7 1 2 ⟨2, 0, 0⟩ ⟨0, 0, 0⟩ ⟨0, 0, 0⟩).1 (by norm_num)⟩,
   ⟨by norm_num, (integrate_euler_or_skip_C7 1 (1 / 2) ⟨2, 0, 0⟩ ⟨3, 4, 5⟩ ⟨6, 7, 8⟩).2 (by norm_num)⟩⟩

/-! Section: Pressure-force symmetry (`ParticleSystem.computeForces`, lines 456–471) -/

/-- The pressure-force contribution that `computeForces` accumulates onto
particle `i` on account of neighbour `j`: with `d = xi − xj`,
`grad = spikyGradient(d, h)` and the symmetric pressure term
`mass*(p_i/ρ_i² + p_j/ρ_j²)`, the contribution is `−pressureTerm·grad`. -/
def pressureForceContrib (mass h pI densityI pJ densityJ dx dy dz : ℝ) : V3 :=
  let grad := spikyGradient dx dy dz h
  let pressureTerm := mass * (pI / (densityI * densityI) + pJ / (densityJ * densityJ))
  ⟨-(pressureTerm * grad.x), -(pressureTerm * grad.y), -(pressureTerm * grad.z)⟩

theorem spikyGradient_neg (rx ry rz h : ℝ) :
    spikyGradient (-rx) (-ry) (-rz) h = V3.smul (-1) (spikyGradient rx ry rz h) := by
  have e : -rx * -rx + -ry * -ry + -rz * -rz = rx * rx + ry * ry + rz * rz := by ring
  simp only [spikyGradient, e]
  split_ifs with hc
  · simp only [V3.smul, V3.mk.injEq]
    exact ⟨by ring, by ring, by ring⟩
  · simp [V3.zero, V3.smul]

/-- C3: for a pair of distinct particles within the smoothing radius
(`0 < r < h`) with nonzero densities, the pressure-force contribution onto
`i` on account of `j` is the exact negation of the contribution onto `j` on
account of `i` (Newton's third law for the pressure term, over real
arithmetic). -/
theorem pressure_force_antisymmetric_C3 (mass h pI densityI pJ densityJ dx dy dz : ℝ)
    (hr0 : 0 < Real.sqrt (dx * dx + dy * dy + dz * dz))
    (hrh : Real.sqrt (dx * dx + dy * dy + dz * dz) < h)
    (hdI : densityI ≠ 0) (hdJ : densityJ ≠ 0) :
    pressureForceContrib mass h pI densityI pJ densityJ dx dy dz =
      V3.smul (-1) (pressureForceContrib mass h pJ densityJ pI densityI (-dx) (-dy) (-dz)) := by
  unfold pressureForceContrib
  rw [spikyGradient_neg]
  simp only [V3.smul, V3.mk.injEq]
  exact ⟨by ring, by ring, by ring⟩

/-- Witness for C3 at a concrete pair: offset `(3,4,0)` (distance `5`),
smoothing radius `6`, densities `2` and `3`. -/
theorem pressure_force_antisymmetric_C3_witness :
    0 < Real.sqrt ((3 : ℝ) * 3 + 4 * 4 + 0 * 0) ∧
    Real.sqrt ((3 : ℝ) * 3 + 4 * 4 + 0 * 0) < 6 ∧
    (2 : ℝ) ≠ 0 ∧ (3 : ℝ) ≠ 0 ∧
    pressureForceContrib 1 6 5 2 7 3 3 4 0 =
      V3.smul (-1) (pressureForceContrib 1 6 7 3 5 2 (-3) (-4) (-0)) := by
  have hs : Real.sqrt ((3 : ℝ) * 3 + 4 * 4 + 0 * 0) = 5 := by
    rw [show (3 : ℝ) * 3 + 4 * 4 + 0 * 0 = 5 ^ 2 by norm_num, Real.sqrt_sq (by norm_num)]
  have h1 : 0 < Real.sqrt ((3 : ℝ) * 3 + 4 * 4 + 0 * 0) := by rw [hs]; norm_num
  have h2 : Real.sqrt ((3 : ℝ) * 3 + 4 * 4 + 0 * 0) < 6 := by rw [hs]; norm_num
  have h3 : (2 : ℝ) ≠ 0 := by norm_num
  have h4 : (3 : ℝ) ≠ 0 := by norm_num
  exact ⟨h1, h2, h3, h4, pressure_force_antisymmetric_C3 1 6 5 2 7 3 3 4 0 h1 h2 h3 h4⟩

theorem poly6Kernel_zero_closed_form (h : ℝ) (hh : 0 < h) :
    poly6Kernel 0 h = 315 / (64 * π * h ^ 3) := by
  unfold poly6Kernel
  rw [if_pos ⟨le_refl (0 : ℝ), hh.le⟩]
  have hπ : π ≠ 0 := Real.pi_ne_zero
  field_simp
  ring

theorem poly6Kernel_zero_default : poly6Kernel 0 (1 / 2) = 315 / (8 * π) := by
  rw [poly6Kernel_zero_closed_form (1 / 2) (by norm_num)]
  have hπ : π ≠ 0 := Real.pi_ne_zero
  field_simp
  ring

theorem poly6Kernel_zero_default_bounds :
    12 ≤ poly6Kernel 0 (1 / 2) ∧ poly6Kernel 0 (1 / 2) < 13 := by
  rw [poly6Kernel_zero_default]
  have h1 : (3.14 : ℝ) < π := Real.pi_gt_314
  have h2 : π < 3.15 := Real.pi_lt_315
  have hπ : (0 : ℝ) < 8 * π := by linarith
  constructor
  · rw [le_div_iff hπ]; nlinarith
  · rw [div_lt_iff hπ]; nlinarith

theorem densityContrib_nonneg (mass h : ℝ) (hm : 0 ≤ mass) (hh : 0 < h) (p q : V3) :
    0 ≤ densityContrib mass h p q := by
  unfold densityContrib
  split_ifs
  · exact mul_nonneg hm (poly6Kernel_nonneg _ _ hh)
  · exact le_refl 0

theorem densityContrib_self (mass h : ℝ) (hh : 0 < h) (p : V3) :
    densityContrib mass h p p = mass * poly6Kernel 0 h := by
  have hlen : (V3.sub p p).length = 0 := by
    simp [V3.sub, V3.length, Real.sqrt_eq_zero']
  unfold densityContrib
  rw [hlen, if_pos hh]

/-- Counterexample for C10 as stated: with the default parameters
(`mass = 1`, `h = 1/2`) the self-contribution `mass * W(0, h)` is below `13`,
nowhere near the claimed `≈ 802`. -/
theorem density_self_term_C10_counterexample :
    (1 : ℝ) * poly6Kernel 0 (1 / 2) < 13 ∧ (13 : ℝ) < 802 := by
  constructor
  · rw [one_mul]
    linarith [poly6Kernel_zero_default_bounds.2]
  · norm_num

/-- C10 (amended): after the density pass every particle's density is at
least its own self-contribution `mass * W(0,h) = mass * 315/(64π h³)`, hence
strictly positive; with the default parameters (`mass = 1`, `h = 1/2`) the
self-contribution lies between `12` and `13` (≈ 12.5), so the density floor
test `density < 1.0` of the integration pass never fires and every particle
takes the Euler branch. -/
theorem density_self_term_C10_amended (mass h : ℝ) (hm : 0 < mass) (hh : 0 < h)
    (ps : List V3) (i : Fin ps.length) :
    mass * poly6Kernel 0 h ≤ computeDensityAt mass h ps (ps.get i) ∧
    poly6Kernel 0 h = 315 / (64 * π * h ^ 3) ∧
    0 < computeDensityAt mass h ps (ps.get i) ∧
    (mass = 1 → h = 1 / 2 →
      12 ≤ mass * poly6Kernel 0 h ∧ mass * poly6Kernel 0 h ≤ 13 ∧
      ¬ computeDensityAt mass h ps (ps.get i) < 1 ∧
      ∀ dt f v, integrateParticle dt (computeDensityAt mass h ps (ps.get i)) f (ps.get i) v =
        (⟨(ps.get i).x + (v.x + f.x / computeDensityAt mass h ps (ps.get i) * dt) * dt,
          (ps.get i).y + (v.y + f.y / computeDensityAt mass h ps (ps.get i) * dt) * dt,
          (ps.get i).z + (v.z + f.z / computeDensityAt mass h ps (ps.get i) * dt) * dt⟩,
         ⟨v.x + f.x / computeDensityAt mass h ps (ps.get i) * dt,
          v.y + f.y / computeDensityAt mass h ps (ps.get i) * dt,
          v.z + f.z / computeDensityAt mass h ps (ps.get i) * dt⟩)) := by
  have hmem : densityContrib mass h (ps.get i) (ps.get i) ∈
      ps.map (fun q => densityContrib mass h (ps.get i) q) :=
    List.mem_map_of_mem _ (ps.get_mem i i.isLt)
  have hpos : ∀ a ∈ ps.map (fun q => densityContrib mass h (ps.get i) q), 0 ≤ a := by
    intro a ha
    obtain ⟨q, hq, rfl⟩ := List.mem_map.mp ha
    exact densityContrib_nonneg mass h hm.le hh _ q
  have hself : mass * poly6Kernel 0 h ≤ computeDensityAt mass h ps (ps.get i) := by
    have := List.single_le_sum hpos _ hmem
    rw [densityContrib_self mass h hh] at this
    exact this
  have hselfpos : 0 < mass * poly6Kernel 0 h := by
    rw [poly6Kernel_zero_closed_form h hh]
    have : (0 : ℝ) < 315 / (64 * π * h ^ 3) := by positivity
    exact mul_pos hm this
  refine ⟨hself, poly6Kernel_zero_closed_form h hh, lt_of_lt_of_le hselfpos hself, ?_⟩
  rintro rfl rfl
  have hb := poly6Kernel_zero_default_bounds
  have h12 : 12 ≤ (1 : ℝ) * poly6Kernel 0 (1 / 2) := by rw [one_mul]; exact hb.1
  have hge : (1 : ℝ) ≤ computeDensityAt 1 (1 / 2) ps (ps.get i) := by
    calc (1 : ℝ) ≤ 12 := by norm_num
    _ ≤ 1 * poly6Kernel 0 (1 / 2) := h12
    _ ≤ _ := hself
  refine ⟨h12, by rw [one_mul]; exact hb.2.le, not_lt.mpr hge, ?_⟩
  intro dt f v
  unfold integrateParticle
  rw [if_neg (not_lt.mpr hge)]

/-- Witness for C10 (amended) at a concrete two-particle configuration
(`mass = 1`, `h = 1/2`, particles at the origin and at `(3,0,0)`). -/
theorem density_self_term_C10_amended_witness :
    (0 : ℝ) < 1 ∧ (0 : ℝ) < 1 / 2 ∧
    (1 * poly6Kernel 0 (1 / 2) ≤
        computeDensityAt 1 (1 / 2) [⟨0, 0, 0⟩, ⟨3, 0, 0⟩] (([⟨0, 0, 0⟩, ⟨3, 0, 0⟩] : List V3).get ⟨0, by norm_num⟩) ∧
      poly6Kernel 0 (1 / 2) = 315 / (64 * π * (1 / 2) ^ 3) ∧
      0 < computeDensityAt 1 (1 / 2) [⟨0, 0, 0⟩, ⟨3, 0, 0⟩] (([⟨0, 0, 0⟩, ⟨3, 0, 0⟩] : List V3).get ⟨0, by norm_num⟩)) := by
  refine ⟨by norm_num, by norm_num, ?_⟩
  have h := density_self_term_C10_amended 1 (1 / 2) (by norm_num) (by norm_num)
    [⟨0, 0, 0⟩, ⟨3, 0, 0⟩] ⟨0, by norm_num⟩
  exact ⟨h.1, h.2.1, h.2.2.1⟩

/-! Section: Particle boundary pass (`ParticleSystem.handleBoundaryCollision`,
FINAL_VERSION.md lines 522–560). The six wall blocks run in source order on
the particle's `(position, velocity)` pair. -/

/-- Bottom wall: clamp `y` up to `boundMin.y`, bounce up with damping,
apply `0.95` friction to the horizontal velocity. -/
def pbcBottom (damping : ℝ) (bMin : V3) (s : V3 × V3) : V3 × V3 :=
  if s.1.y < bMin.y then
    (⟨s.1.x, bMin.y, s.1.z⟩, ⟨s.2.x * 0.95, |s.2.y| * damping, s.2.z * 0.95⟩)
  else s

/-- Top wall: clamp `y` down to `boundMax.y` and push down with damping. -/
def pbcTop (damping : ℝ) (bMax : V3) (s : V3 × V3) : V3 × V3 :=
  if s.1.y > bMax.y then
    (⟨s.1.x, bMax.y, s.1.z⟩, ⟨s.2.x, -|s.2.y| * damping, s.2.z⟩)
  else s

/-- Low X wall. -/
def pbcXMin (damping : ℝ) (bMin : V3) (s : V3 × V3) : V3 × V3 :=
  if s.1.x < bMin.x then
    (⟨bMin.x, s.1.y, s.1.z⟩, ⟨|s.2.x| * damping, s.2.y, s.2.z⟩)
  else s

/-- High X wall. -/
def pbcXMax (damping : ℝ) (bMax : V3) (s : V3 × V3) : V3 × V3 :=
  if s.1.x > bMax.x then
    (⟨bMax.x, s.1.y, s.1.z⟩, ⟨-|s.2.x| * damping, s.2.y, s.2.z⟩)
  else s

/-- Low Z wall. -/
def pbcZMin (damping : ℝ) (bMin : V3) (s : V3 × V3) : V3 × V3 :=
  if s.1.z < bMin.z then
    (⟨s.1.x, s.1.y, bMin.z⟩, ⟨s.2.x, s.2.y, |s.2.z| * damping⟩)
  else s

/-- High Z wall. -/
def pbcZMax (damping : ℝ) (bMax : V3) (s : V3 × V3) : V3 × V3 :=
  if s.1.z > bMax.z then
    (⟨s.1.x, s.1.y, bMax.z⟩, ⟨s.2.x, s.2.y, -|s.2.z| * damping⟩)
  else s

/-- Source `ParticleSystem.handleBoundaryCollision(i)`: the six wall blocks in
source order (bottom, top, X min, X max, Z min, Z max). -/
def handleBoundaryCollision (damping : ℝ) (bMin bMax : V3) (p v : V3) : V3 × V3 :=
  pbcZMax damping bMax (pbcZMin damping bMin (pbcXMax damping bMax
    (pbcXMin damping bMin (pbcTop damping bMax (pbcBottom damping bMin (p, v))))))

theorem pbcBottom_pos_x (d : ℝ) (m : V3) (s : V3 × V3) : (pbcBottom d m s).1.x = s.1.x := by
  unfold pbcBottom; split_ifs <;> rfl

theorem pbcBottom_pos_z (d : ℝ) (m : V3) (s : V3 × V3) : (pbcBottom d m s).1.z = s.1.z := by
  unfold pbcBottom; split_ifs <;> rfl

theorem pbcBottom_pos_y_ge (d : ℝ) (m : V3) (s : V3 × V3) : m.y ≤ (pbcBottom d m s).1.y := by
  unfold pbcBottom; split_ifs with hc
  · exact le_refl _
  · exact le_of_not_lt hc

theorem pbcTop_pos_x (d : ℝ) (M : V3) (s : V3 × V3) : (pbcTop d M s).1.x = s.1.x := by
  unfold pbcTop; split_ifs <;> rfl

theorem pbcTop_pos_z (d : ℝ) (M : V3) (s : V3 × V3) : (pbcTop d M s).1.z = s.1.z := by
  unfold pbcTop; split_ifs <;> rfl

theorem pbcTop_pos_y_le (d : ℝ) (M : V3) (s : V3 × V3) : (pbcTop d M s).1.y ≤ M.y := by
  unfold pbcTop; split_ifs with hc
  · exact le_refl _
  · exact le_of_not_lt hc

theorem pbcTop_pos_y_ge (d : ℝ) (m M : V3) (s : V3 × V3) (h1 : m.y ≤ s.1.y)
    (h2 : m.y ≤ M.y) : m.y ≤ (pbcTop d M s).1.y := by
  unfold pbcTop; split_ifs
  · exact h2
  · exact h1

theorem pbcXMin_pos_y (d : ℝ) (m : V3) (s : V3 × V3) : (pbcXMin d m s).1.y = s.1.y := by
  unfold pbcXMin; split_ifs <;> rfl

theorem pbcXMin_pos_z (d : ℝ) (m : V3) (s : V3 × V3) : (pbcXMin d m s).1.z = s.1.z := by
  unfold pbcXMin; split_ifs <;> rfl

theorem pbcXMin_pos_x_ge (d : ℝ) (m : V3) (s : V3 × V3) : m.x ≤ (pbcXMin d m s).1.x := by
  unfold pbcXMin; split_ifs with hc
  · exact le_refl _
  · exact le_of_not_lt hc

theorem pbcXMax_pos_y (d : ℝ) (M : V3) (s : V3 × V3) : (pbcXMax d M s).1.y = s.1.y := by
  unfold pbcXMax; split_ifs <;> rfl

theorem pbcXMax_pos_z (d : ℝ) (M : V3) (s : V3 × V3) : (pbcXMax d M s).1.z = s.1.z := by
  unfold pbcXMax; split_ifs <;> rfl

theorem pbcXMax_pos_x_le (d : ℝ) (M : V3) (s : V3 × V3) : (pbcXMax d M s).1.x ≤ M.x := by
  unfold pbcXMax; split_ifs with hc
  · exact le_refl _
  · exact le_of_not_lt hc

theorem pbcXMax_pos_x_ge (d : ℝ) (m M : V3) (s : V3 × V3) (h1 : m.x ≤ s.1.x)
    (h2 : m.x ≤ M.x) : m.x ≤ (pbcXMax d M s).1.x := by
  unfold pbcXMax; split_ifs
  · exact h2
  · exact h1

theorem pbcZMin_pos_x (d : ℝ) (m : V3) (s : V3 × V3) : (pbcZMin d m s).1.x = s.1.x := by
  unfold pbcZMin; split_ifs <;> rfl

theorem pbcZMin_pos_y (d : ℝ) (m : V3) (s : V3 × V3) : (pbcZMin d m s).1.y = s.1.y := by
  unfold pbcZMin; split_ifs <;> rfl

theorem pbcZMin_pos_z_ge (d : ℝ) (m : V3) (s : V3 × V3) : m.z ≤ (pbcZMin d m s).1.z := by
  unfold pbcZMin; split_ifs with hc
  · exact le_refl _
  · exact le_of_not_lt hc

theorem pbcZMax_pos_x (d : ℝ) (M : V3) (s : V3 × V3) : (pbcZMax d M s).1.x = s.1.x := by
  unfold pbcZMax; split_ifs <;> rfl

theorem pbcZMax_pos_y (d : ℝ) (M : V3) (s : V3 × V3) : (pbcZMax d M s).1.y = s.1.y := by
  unfold pbcZMax; split_ifs <;> rfl

theorem pbcZMax_pos_z_le (d : ℝ) (M : V3) (s : V3 × V3) : (pbcZMax d M s).1.z ≤ M.z := by
  unfold pbcZMax; split_ifs with hc
  · exact le_refl _
  · exact le_of_not_lt hc

theorem pbcZMax_pos_z_ge (d : ℝ) (m M : V3) (s : V3 × V3) (h1 : m.z ≤ s.1.z)
    (h2 : m.z ≤ M.z) : m.z ≤ (pbcZMax d M s).1.z := by
  unfold pbcZMax; split_ifs
  · exact h2
  · exact h1

theorem handleBoundaryCollision_mem (damping : ℝ) (bMin bMax : V3)
    (hx : bMin.x ≤ bMax.x) (hy : bMin.y ≤ bMax.y) (hz : bMin.z ≤ bMax.z) (p v : V3) :
    bMin.x ≤ (handleBoundaryCollision damping bMin bMax p v).1.x ∧
    (handleBoundaryCollision damping bMin bMax p v).1.x ≤ bMax.x ∧
    bMin.y ≤ (handleBoundaryCollision damping bMin bMax p v).1.y ∧
    (handleBoundaryCollision damping bMin bMax p v).1.y ≤ bMax.y ∧
    bMin.z ≤ (handleBoundaryCollision damping bMin bMax p v).1.z ∧
    (handleBoundaryCollision damping bMin bMax p v).1.z ≤ bMax.z := by
  unfold handleBoundaryCollision
  set s1 := pbcBottom damping bMin (p, v) with hs1
  set s2 := pbcTop damping bMax s1 with hs2
  set s3 := pbcXMin damping bMin s2 with hs3
  set s4 := pbcXMax damping bMax s3 with hs4
  set s5 := pbcZMin damping bMin s4 with hs5
  have hy1 : bMin.y ≤ s2.1.y := pbcTop_pos_y_ge _ _ _ _ (pbcBottom_pos_y_ge _ _ _) hy
  have hy2 : s2.1.y ≤ bMax.y := pbcTop_pos_y_le _ _ _
  have hy5 : s5.1.y = s2.1.y := by
    rw [hs5, pbcZMin_pos_y, hs4, pbcXMax_pos_y, hs3, pbcXMin_pos_y]
  have hx3 : bMin.x ≤ s3.1.x := pbcXMin_pos_x_ge _ _ _
  have hx4a : bMin.x ≤ s4.1.x := pbcXMax_pos_x_ge _ _ _ _ hx3 hx
  have hx4b : s4.1.x ≤ bMax.x := pbcXMax_pos_x_le _ _ _
  have hx5 : s5.1.x = s4.1.x := by rw [hs5, pbcZMin_pos_x]
  have hz5 : bMin.z ≤ s5.1.z := pbcZMin_pos_z_ge _ _ _
  refine ⟨?_, ?_, ?_, ?_, ?_, ?_⟩
  · rw [pbcZMax_pos_x, hx5]; exact hx4a
  · rw [pbcZMax_pos_x, hx5]; exact hx4b
  · rw [pbcZMax_pos_y, hy5]; exact hy1
  · rw [pbcZMax_pos_y, hy5]; exact hy2
  · exact pbcZMax_pos_z_ge _ _ _ _ hz5 hz
  · exact pbcZMax_pos_z_le _ _ _

/-! Section: Rigid bodies (`RigidBody.js`) -/

/-- The shape tags handled by `RigidBody.createMesh` (the source dispatches
on the strings 'sphere', 'cube', 'cylinder', 'torus', 'cone', 'boat',
'hollow-sphere', 'hollow-cube', 'hollow-cylinder'). -/
inductive BodyType where
  | sphere
  | cube
  | cylinder
  | torus
  | cone
  | boat
  | hollowSphere
  | hollowCube
  | hollowCylinder
deriving DecidableEq

/-- The physics state of a `RigidBody`: shape tag, transform, linear and
angular velocity, physics-driven rotation, user-set rotation (degrees),
scaled size and material density. -/
structure Body where
  type : BodyType
  position : V3
  velocity : V3
  angularVelocity : V3
  physicalRotation : V3
  rotationX : ℝ
  rotationY : ℝ
  rotationZ : ℝ
  size : V3
  density : ℝ

/-! Section: Fluid→rigid particle collisions
(`ParticleSystem.handleRigidBodyCollisions`, FINAL_VERSION.md lines 562–630) -/

/-- The round-body branch of `handleRigidBodyCollisions`: if the particle is
strictly inside the radius (and not at the centre), push it to the surface
along the radial direction and, if the velocity points inward, reflect it
about the surface normal and damp it. -/
def sphereCollide (center : V3) (radius damping : ℝ) (p v : V3) : V3 × V3 :=
  let dx := p.x - center.x
  let dy := p.y - center.y
  let dz := p.z - center.z
  let dist := Real.sqrt (dx * dx + dy * dy + dz * dz)
  if dist < radius ∧ 0 < dist then
    let nx := dx / dist
    let ny := dy / dist
    let nz := dz / dist
    let p' : V3 := ⟨center.x + nx * radius, center.y + ny * radius, center.z + nz * radius⟩
    let d := v.x * nx + v.y * ny + v.z * nz
    if d < 0 then
      (p', ⟨(v.x - 2 * d * nx) * damping, (v.y - 2 * d * ny) * damping,
            (v.z - 2 * d * nz) * damping⟩)
    else (p', v)
  else (p, v)

/-- The cube branch of `handleRigidBodyCollisions`: if the particle is
strictly inside the axis-aligned half-extent box, push it out along the axis
of minimum penetration and reflect the velocity on that axis only. -/
def cubeCollide (center size : V3) (damping : ℝ) (p v : V3) : V3 × V3 :=
  let dx := p.x - center.x
  let dy := p.y - center.y
  let dz := p.z - center.z
  let halfX := size.x * 0.5
  let halfY := size.y * 0.5
  let halfZ := size.z * 0.5
  if |dx| < halfX ∧ |dy| < halfY ∧ |dz| < halfZ then
    let penX := halfX - |dx|
    let penY := halfY - |dy|
    let penZ := halfZ - |dz|
    let minPen := min (min penX penY) penZ
    if minPen = penX then
      let sign : ℝ := if dx > 0 then 1 else -1
      (⟨center.x + sign * halfX, p.y, p.z⟩, ⟨|v.x| * sign * damping, v.y, v.z⟩)
    else if minPen = penY then
      let sign : ℝ := if dy > 0 then 1 else -1
      (⟨p.x, center.y + sign * halfY, p.z⟩, ⟨v.x, |v.y| * sign * damping, v.z⟩)
    else
      let sign : ℝ := if dz > 0 then 1 else -1
      (⟨p.x, p.y, center.z + sign * halfZ⟩, ⟨v.x, v.y, |v.z| * sign * damping⟩)
  else (p, v)

/-- The body of the `for (const body of rigidBodies)` loop of
`handleRigidBodyCollisions` for one body, translated directly from the
source: the round test runs for the tags 'sphere', 'cylinder' and 'torus',
the box test for the tag 'cube', and every other tag falls through with the
particle untouched. -/
def collideParticleBody (damping : ℝ) (b : Body) (p v : V3) : V3 × V3 :=
  let dx := p.x - b.position.x
  let dy := p.y - b.position.y
  let dz := p.z - b.position.z
  if b.type = BodyType.sphere ∨ b.type = BodyType.cylinder ∨ b.type = BodyType.torus then
    let dist := Real.sqrt (dx * dx + dy * dy + dz * dz)
    let radius := b.size.x
    if dist < radius ∧ 0 < dist then
      let nx := dx / dist
      let ny := dy / dist
      let nz := dz / dist
      let p' : V3 := ⟨b.position.x + nx * radius, b.position.y + ny * radius,
                      b.position.z + nz * radius⟩
      let d := v.x * nx + v.y * ny + v.z * nz
      if d < 0 then
        (p', ⟨(v.x - 2 * d * nx) * damping, (v.y - 2 * d * ny) * damping,
              (v.z - 2 * d * nz) * damping⟩)
      else (p', v)
    else (p, v)
  else if b.type = BodyType.cube then
    let halfX := b.size.x * 0.5
    let halfY := b.size.y * 0.5
    let halfZ := b.size.z * 0.5
    if |dx| < halfX ∧ |dy| < halfY ∧ |dz| < halfZ then
      let penX := halfX - |dx|
      let penY := halfY - |dy|
      let penZ := halfZ - |dz|
      let minPen := min (min penX penY) penZ
      if minPen = penX then
        let sign : ℝ := if dx > 0 then 1 else -1
        (⟨b.position.x + sign * halfX, p.y, p.z⟩, ⟨|v.x| * sign * damping, v.y, v.z⟩)
      else if minPen = penY then
        let sign : ℝ := if dy > 0 then 1 else -1
        (⟨p.x, b.position.y + sign * halfY, p.z⟩, ⟨v.x, |v.y| * sign * damping, v.z⟩)
      else
        let sign : ℝ := if dz > 0 then 1 else -1
        (⟨p.x, p.y, b.position.z + sign * halfZ⟩, ⟨v.x, v.y, |v.z| * sign * damping⟩)
    else (p, v)
  else (p, v)

/-- Source `ParticleSystem.handleRigidBodyCollisions(i, rigidBodies)` for one
particle: the loop over the body list threads the particle's
`(position, velocity)` through `collideParticleBody`. -/
def handleRigidBodyCollisions (damping : ℝ) (bodies : List Body) (p v : V3) : V3 × V3 :=
  bodies.foldl (fun s b => collideParticleBody damping b s.1 s.2) (p, v)

/-- The whole fluid→rigid coupling pass over all particles: the source
method writes only the particle arrays (`this.positions`,
`this.velocities`); the body list is read, never written, so the pass
returns it as received. -/
def rigidCouplingPass (damping : ℝ) (bodies : List Body) (parts : List (V3 × V3)) :
    List (V3 × V3) × List Body :=
  (parts.map fun s => handleRigidBodyCollisions damping bodies s.1 s.2, bodies)

/-- C9: the fluid→rigid coupling pass returns the body list exactly as it
received it — no body's position, velocity, angular velocity, rotation,
size or density is changed; only the particle arrays are written. -/
theorem rigid_coupling_one_way_C9 (damping : ℝ) (bodies : List Body)
    (parts : List (V3 × V3)) :
    (rigidCouplingPass damping bodies parts).2 = bodies ∧
    ((rigidCouplingPass damping bodies parts).2.map Body.position = bodies.map Body.position ∧
     (rigidCouplingPass damping bodies parts).2.map Body.velocity = bodies.map Body.velocity ∧
     (rigidCouplingPass damping bodies parts).2.map Body.angularVelocity =
       bodies.map Body.angularVelocity ∧
     (rigidCouplingPass damping bodies parts).2.map Body.physicalRotation =
       bodies.map Body.physicalRotation ∧
     (rigidCouplingPass damping bodies parts).2.map Body.size = bodies.map Body.size ∧
     (rigidCouplingPass damping bodies parts).2.map Body.density = bodies.map Body.density) :=
  ⟨rfl, rfl, rfl, rfl, rfl, rfl, rfl⟩

/-- C2 (amended): the per-body branch of the fluid→rigid pass applies the
sphere test to the tags sphere, cylinder and torus, the axis-aligned box
test to the tag cube, and skips every other tag (cone, boat, hollow-sphere,
hollow-cube, hollow-cylinder), leaving the particle untouched. -/
theorem rigid_collision_dispatch_C2_amended (damping : ℝ) (b : Body) (p v : V3) :
    collideParticleBody damping b p v =
      (if b.type = BodyType.sphere ∨ b.type = BodyType.cylinder ∨ b.type = BodyType.torus then
        sphereCollide b.position b.size.x damping p v
      else if b.type = BodyType.cube then
        cubeCollide b.position b.size damping p v
      else (p, v)) := by
  rcases b with ⟨ty, pos, vel, av, pr, rx, ry, rz, sz, dens⟩
  cases ty <;> rfl

theorem sqrt_cancel (a b : ℝ) (hb : 0 ≤ b) (h : a = b * b) : Real.sqrt a = b := by
  rw [h, Real.sqrt_mul_self hb]

/-- Counterexample for C2 as stated: a cone body overlapping a particle is
skipped by the pass (the particle comes back untouched), while both the
sphere test and the box test would move that particle — so the pass applies
neither test to the cone (and likewise to boat and the hollow tags). -/
theorem rigid_collision_dispatch_C2_counterexample :
    collideParticleBody (3 / 5)
        ⟨BodyType.cone, ⟨0, 0, 0⟩, ⟨0, 0, 0⟩, ⟨0, 0, 0⟩, ⟨0, 0, 0⟩, 0, 0, 0,
         ⟨4 / 5, 4 / 5, 4 / 5⟩, 2700⟩
        ⟨1 / 5, 0, 0⟩ ⟨-1, 0, 0⟩ = (⟨1 / 5, 0, 0⟩, ⟨-1, 0, 0⟩) ∧
    (sphereCollide ⟨0, 0, 0⟩ (4 / 5) (3 / 5) ⟨1 / 5, 0, 0⟩ ⟨-1, 0, 0⟩).1.x ≠ 1 / 5 ∧
    (cubeCollide ⟨0, 0, 0⟩ ⟨4 / 5, 4 / 5, 4 / 5⟩ (3 / 5) ⟨1 / 5, 0, 0⟩ ⟨-1, 0, 0⟩).1.x ≠ 1 / 5 := by
  refine ⟨rfl, ?_, ?_⟩
  · have hs : Real.sqrt (((1 : ℝ) / 5 - 0) * (1 / 5 - 0) + (0 - 0) * (0 - 0) +
        (0 - 0) * (0 - 0)) = 1 / 5 :=
      sqrt_cancel _ _ (by norm_num) (by norm_num)
    simp only [sphereCollide, hs]
    norm_num
  · simp only [cubeCollide]
    norm_num [abs_of_pos]

theorem sphereCollide_pos_eval (c p v : V3) (radius damping : ℝ)
    (h1 : (V3.sub p c).length < radius) (h2 : 0 < (V3.sub p c).length) :
    (sphereCollide c radius damping p v).1 =
      ⟨c.x + (p.x - c.x) / (V3.sub p c).length * radius,
       c.y + (p.y - c.y) / (V3.sub p c).length * radius,
       c.z + (p.z - c.z) / (V3.sub p c).length * radius⟩ := by
  have h1' : Real.sqrt ((p.x - c.x) * (p.x - c.x) + (p.y - c.y) * (p.y - c.y)
      + (p.z - c.z) * (p.z - c.z)) < radius := h1
  have h2' : 0 < Real.sqrt ((p.x - c.x) * (p.x - c.x) + (p.y - c.y) * (p.y - c.y)
      + (p.z - c.z) * (p.z - c.z)) := h2
  simp only [sphereCollide]
  rw [if_pos (⟨h1', h2'⟩ : _ ∧ _)]
  split_ifs <;> rfl

theorem sphereCollide_vel_eval (c p v : V3) (radius damping : ℝ)
    (h1 : (V3.sub p c).length < radius) (h2 : 0 < (V3.sub p c).length)
    (hrefl : v.x * ((p.x - c.x) / (V3.sub p c).length)
      + v.y * ((p.y - c.y) / (V3.sub p c).length)
      + v.z * ((p.z - c.z) / (V3.sub p c).length) < 0) :
    (sphereCollide c radius damping p v).2 =
      ⟨(v.x - 2 * (v.x * ((p.x - c.x) / (V3.sub p c).length)
          + v.y * ((p.y - c.y) / (V3.sub p c).length)
          + v.z * ((p.z - c.z) / (V3.sub p c).length)) * ((p.x - c.x) / (V3.sub p c).length)) * damping,
       (v.y - 2 * (v.x * ((p.x - c.x) / (V3.sub p c).length)
          + v.y * ((p.y - c.y) / (V3.sub p c).length)
          + v.z * ((p.z - c.z) / (V3.sub p c).length)) * ((p.y - c.y) / (V3.sub p c).length)) * damping,
       (v.z - 2 * (v.x * ((p.x - c.x) / (V3.sub p c).length)
          + v.y * ((p.y - c.y) / (V3.sub p c).length)
          + v.z * ((p.z - c.z) / (V3.sub p c).length)) * ((p.z - c.z) / (V3.sub p c).length)) * damping⟩ := by
  have h1' : Real.sqrt ((p.x - c.x) * (p.x - c.x) + (p.y - c.y) * (p.y - c.y)
      + (p.z - c.z) * (p.z - c.z)) < radius := h1
  have h2' : 0 < Real.sqrt ((p.x - c.x) * (p.x - c.x) + (p.y - c.y) * (p.y - c.y)
      + (p.z - c.z) * (p.z - c.z)) := h2
  have hrefl' : v.x * ((p.x - c.x) / Real.sqrt ((p.x - c.x) * (p.x - c.x) + (p.y - c.y) * (p.y - c.y) + (p.z - c.z) * (p.z - c.z)))
      + v.y * ((p.y - c.y) / Real.sqrt ((p.x - c.x) * (p.x - c.x) + (p.y - c.y) * (p.y - c.y) + (p.z - c.z) * (p.z - c.z)))
      + v.z * ((p.z - c.z) / Real.sqrt ((p.x - c.x) * (p.x - c.x) + (p.y - c.y) * (p.y - c.y) + (p.z - c.z) * (p.z - c.z))) < 0 := hrefl
  simp only [sphereCollide]
  rw [if_pos (⟨h1', h2'⟩ : _ ∧ _), if_pos hrefl']
  rfl

theorem sphereCollide_vel_eval_no (c p v : V3) (radius damping : ℝ)
    (h1 : (V3.sub p c).length < radius) (h2 : 0 < (V3.sub p c).length)
    (hrefl : ¬ (v.x * ((p.x - c.x) / (V3.sub p c).length)
      + v.y * ((p.y - c.y) / (V3.sub p c).length)
      + v.z * ((p.z - c.z) / (V3.sub p c).length) < 0)) :
    (sphereCollide c radius damping p v).2 = v := by
  have h1' : Real.sqrt ((p.x - c.x) * (p.x - c.x) + (p.y - c.y) * (p.y - c.y)
      + (p.z - c.z) * (p.z - c.z)) < radius := h1
  have h2' : 0 < Real.sqrt ((p.x - c.x) * (p.x - c.x) + (p.y - c.y) * (p.y - c.y)
      + (p.z - c.z) * (p.z - c.z)) := h2
  have hrefl' : ¬ (v.x * ((p.x - c.x) / Real.sqrt ((p.x - c.x) * (p.x - c.x) + (p.y - c.y) * (p.y - c.y) + (p.z - c.z) * (p.z - c.z)))
      + v.y * ((p.y - c.y) / Real.sqrt ((p.x - c.x) * (p.x - c.x) + (p.y - c.y) * (p.y - c.y) + (p.z - c.z) * (p.z - c.z)))
      + v.z * ((p.z - c.z) / Real.sqrt ((p.x - c.x) * (p.x - c.x) + (p.y - c.y) * (p.y - c.y) + (p.z - c.z) * (p.z - c.z))) < 0) := hrefl
  simp only [sphereCollide]
  rw [if_pos (⟨h1', h2'⟩ : _ ∧ _), if_neg hrefl']

theorem dot_normalized (w : V3) (hw : 0 < w.length) :
    V3.dot (V3.smul (1 / w.length) w) (V3.smul (1 / w.length) w) = 1 := by
  have hL := V3.sq_length w
  simp only [V3.dot, V3.smul]
  field_simp
  linear_combination (-1 : ℝ) * hL

theorem reflect_dot_nonneg (damping d : ℝ) (v u : V3) (hd : 0 ≤ damping)
    (huu : V3.dot u u = 1) (hvd : V3.dot v u = d) (hneg : d < 0) :
    0 ≤ V3.dot ⟨(v.x - 2 * d * u.x) * damping, (v.y - 2 * d * u.y) * damping,
                (v.z - 2 * d * u.z) * damping⟩ u := by
  have expand : V3.dot ⟨(v.x - 2 * d * u.x) * damping, (v.y - 2 * d * u.y) * damping,
      (v.z - 2 * d * u.z) * damping⟩ u
      = damping * (V3.dot v u - 2 * d * V3.dot u u) := by
    simp only [V3.dot]; ring
  rw [expand, hvd, huu]
  calc (0 : ℝ) ≤ damping * (-d) := mul_nonneg hd (by linarith)
  _ = damping * (d - 2 * d * 1) := by ring

/-- C4 (amended): a particle overlapping a sphere body of radius `0.8`
(strictly inside, at positive distance from the centre) ends the collision
pass at distance at least the radius from the centre (on the surface —
penetration resolved), and its velocity component along the outward contact
normal is non-negative. -/
theorem sphere_pushout_C4_amended (c p v : V3) (damping : ℝ) (hd : 0 ≤ damping)
    (h0 : 0 < (V3.sub p c).length) (hin : (V3.sub p c).length < 4 / 5) :
    4 / 5 ≤ (V3.sub (sphereCollide c (4 / 5) damping p v).1 c).length ∧
    0 ≤ V3.dot (sphereCollide c (4 / 5) damping p v).2
        (V3.smul (1 / (V3.sub p c).length) (V3.sub p c)) := by
  have hD0 : 0 < (V3.sub p c).length := h0
  have hsq : (p.x - c.x) * (p.x - c.x) + (p.y - c.y) * (p.y - c.y) + (p.z - c.z) * (p.z - c.z)
      = (V3.sub p c).length * (V3.sub p c).length := (V3.sq_length (V3.sub p c)).symm
  constructor
  · rw [sphereCollide_pos_eval c p v (4 / 5) damping hin h0]
    have hsub : V3.sub
        ⟨c.x + (p.x - c.x) / (V3.sub p c).length * (4 / 5),
         c.y + (p.y - c.y) / (V3.sub p c).length * (4 / 5),
         c.z + (p.z - c.z) / (V3.sub p c).length * (4 / 5)⟩ c
        = V3.smul ((4 / 5) / (V3.sub p c).length) (V3.sub p c) := by
      simp only [V3.sub, V3.smul, V3.mk.injEq]
      refine ⟨by ring, by ring, by ring⟩
    rw [hsub, V3.length_smul]
    rw [abs_of_pos (by positivity : (0 : ℝ) < 4 / 5 / (V3.sub p c).length)]
    rw [div_mul_cancel₀ _ hD0.ne']
  · by_cases hrefl : v.x * ((p.x - c.x) / (V3.sub p c).length)
        + v.y * ((p.y - c.y) / (V3.sub p c).length)
        + v.z * ((p.z - c.z) / (V3.sub p c).length) < 0
    · have hv' : (sphereCollide c (4 / 5) damping p v).2 =
          ⟨(v.x - 2 * (v.x * ((p.x - c.x) / (V3.sub p c).length)
              + v.y * ((p.y - c.y) / (V3.sub p c).length)
              + v.z * ((p.z - c.z) / (V3.sub p c).length))
              * (V3.smul (1 / (V3.sub p c).length) (V3.sub p c)).x) * damping,
           (v.y - 2 * (v.x * ((p.x - c.x) / (V3.sub p c).length)
              + v.y * ((p.y - c.y) / (V3.sub p c).length)
              + v.z * ((p.z - c.z) / (V3.sub p c).length))
              * (V3.smul (1 / (V3.sub p c).length) (V3.sub p c)).y) * damping,
           (v.z - 2 * (v.x * ((p.x - c.x) / (V3.sub p c).length)
              + v.y * ((p.y - c.y) / (V3.sub p c).length)
              + v.z * ((p.z - c.z) / (V3.sub p c).length))
              * (V3.smul (1 / (V3.sub p c).length) (V3.sub p c)).z) * damping⟩ := by
        rw [sphereCollide_vel_eval c p v (4 / 5) damping hin h0 hrefl]
        simp only [V3.smul, V3.sub, V3.mk.injEq]
        refine ⟨by ring, by ring, by ring⟩
      rw [hv']
      apply reflect_dot_nonneg damping _ v _ hd
      · exact dot_normalized (V3.sub p c) h0
      · simp only [V3.dot, V3.smul, V3.sub]
        ring
      · exact hrefl
    · rw [sphereCollide_vel_eval_no c p v (4 / 5) damping hin h0 hrefl]
      simp only [V3.dot, V3.smul, V3.sub]
      push_neg at hrefl
      calc (0 : ℝ) ≤ v.x * ((p.x - c.x) / (V3.sub p c).length)
            + v.y * ((p.y - c.y) / (V3.sub p c).length)
            + v.z * ((p.z - c.z) / (V3.sub p c).length) := hrefl
      _ = v.x * (1 / (V3.sub p c).length * (p.x - c.x))
            + v.y * (1 / (V3.sub p c).length * (p.y - c.y))
            + v.z * (1 / (V3.sub p c).length * (p.z - c.z)) := by ring


/-- Counterexample for C4 as stated: a particle at distance `0.4` inside the
radius-`0.8` sphere is pushed exactly onto the surface — its final distance
from the centre equals the radius, so it is not strictly outside. -/
theorem sphere_pushout_C4_counterexample :
    0 < (V3.sub ⟨2 / 5, 0, 0⟩ (⟨0, 0, 0⟩ : V3)).length ∧
    (V3.sub ⟨2 / 5, 0, 0⟩ (⟨0, 0, 0⟩ : V3)).length < 4 / 5 ∧
    ¬ (4 / 5 < (V3.sub (sphereCollide ⟨0, 0, 0⟩ (4 / 5) (3 / 5) ⟨2 / 5, 0, 0⟩ ⟨-1, 0, 0⟩).1
        (⟨0, 0, 0⟩ : V3)).length) := by
  have hs : Real.sqrt (((2 : ℝ) / 5 - 0) * (2 / 5 - 0) + (0 - 0) * (0 - 0) + (0 - 0) * (0 - 0))
      = 2 / 5 := sqrt_cancel _ _ (by norm_num) (by norm_num)
  have hlen : (V3.sub ⟨2 / 5, 0, 0⟩ (⟨0, 0, 0⟩ : V3)).length = 2 / 5 := by
    simp only [V3.sub, V3.length]
    exact hs
  have hres : (sphereCollide ⟨0, 0, 0⟩ (4 / 5) (3 / 5) ⟨2 / 5, 0, 0⟩ ⟨-1, 0, 0⟩).1
      = ⟨4 / 5, 0, 0⟩ := by
    simp only [sphereCollide, hs]
    norm_num
  have hlen2 : (V3.sub (⟨4 / 5, 0, 0⟩ : V3) (⟨0, 0, 0⟩ : V3)).length = 4 / 5 := by
    simp only [V3.sub, V3.length]
    exact sqrt_cancel _ _ (by norm_num) (by norm_num)
  refine ⟨by rw [hlen]; norm_num, by rw [hlen]; norm_num, ?_⟩
  rw [hres, hlen2]
  exact lt_irrefl _

/-- Witness for C4 (amended) at the concrete scenario of the claim: sphere
of radius `0.8` centred at the origin, particle at `(0.4, 0, 0)` moving
inward with velocity `(-1, 0, 0)`, damping `0.6`. -/
theorem sphere_pushout_C4_amended_witness :
    (0 : ℝ) ≤ 3 / 5 ∧
    0 < (V3.sub ⟨2 / 5, 0, 0⟩ (⟨0, 0, 0⟩ : V3)).length ∧
    (V3.sub ⟨2 / 5, 0, 0⟩ (⟨0, 0, 0⟩ : V3)).length < 4 / 5 ∧
    (4 / 5 ≤ (V3.sub (sphereCollide ⟨0, 0, 0⟩ (4 / 5) (3 / 5) ⟨2 / 5, 0, 0⟩ ⟨-1, 0, 0⟩).1
        (⟨0, 0, 0⟩ : V3)).length ∧
     0 ≤ V3.dot (sphereCollide ⟨0, 0, 0⟩ (4 / 5) (3 / 5) ⟨2 / 5, 0, 0⟩ ⟨-1, 0, 0⟩).2
        (V3.smul (1 / (V3.sub ⟨2 / 5, 0, 0⟩ (⟨0, 0, 0⟩ : V3)).length)
          (V3.sub ⟨2 / 5, 0, 0⟩ (⟨0, 0, 0⟩ : V3)))) := by
  have hs : Real.sqrt (((2 : ℝ) / 5 - 0) * (2 / 5 - 0) + (0 - 0) * (0 - 0) + (0 - 0) * (0 - 0))
      = 2 / 5 := sqrt_cancel _ _ (by norm_num) (by norm_num)
  have hlen : (V3.sub ⟨2 / 5, 0, 0⟩ (⟨0, 0, 0⟩ : V3)).length = 2 / 5 := by
    simp only [V3.sub, V3.length]
    exact hs
  have h0 : 0 < (V3.sub ⟨2 / 5, 0, 0⟩ (⟨0, 0, 0⟩ : V3)).length := by rw [hlen]; norm_num
  have hin : (V3.sub ⟨2 / 5, 0, 0⟩ (⟨0, 0, 0⟩ : V3)).length < 4 / 5 := by rw [hlen]; norm_num
  exact ⟨by norm_num, h0, hin,
    sphere_pushout_C4_amended ⟨0, 0, 0⟩ ⟨2 / 5, 0, 0⟩ ⟨-1, 0, 0⟩ (3 / 5) (by norm_num) h0 hin⟩

/-! Section: Rigid-body per-step dynamics (`RigidBody.update`, RigidBody.js
lines 198–215: buoyancy, drag, position advection) -/

/-- The opening dynamics section of `RigidBody.update`: the vertical velocity first
gets the buoyancy-scaled gravity `gravity * (1 − buoyancyFactor·0.8) * dt`
with `buoyancyFactor = fluidDensity / density`, then the whole velocity is
rescaled by the drag factor `1 − 0.01·min(fluidDensity/1000, 2)·dt·60`, and
the position advances by `velocity · dt`. -/
def rigidBodyDynamics (dt gravity fluidDensity : ℝ) (b : Body) : Body :=
  let buoyancyFactor := fluidDensity / b.density
  let effectiveGravity := gravity * (1 - buoyancyFactor * 0.8)
  let v1 : V3 := ⟨b.velocity.x, b.velocity.y + effectiveGravity * dt, b.velocity.z⟩
  let dragFactor := min (fluidDensity / 1000) 2
  let v2 := V3.smul (1 - 0.01 * dragFactor * dt * 60) v1
  { b with velocity := v2, position := V3.add b.position (V3.smul dt v2) }

/-- Counterexample for C8 as stated: with gravity `0` the buoyancy channel
contributes nothing, yet changing the ambient fluid density from `1000` to
`2000` still changes the body's horizontal velocity (through the drag
factor) — so the buoyancy factor is not the sole channel by which the fluid
affects the body's dynamics. -/
theorem buoyancy_sole_channel_C8_counterexample :
    (rigidBodyDynamics (1 / 60) 0 1000
        ⟨BodyType.sphere, ⟨0, 0, 0⟩, ⟨1, 0, 0⟩, ⟨0, 0, 0⟩, ⟨0, 0, 0⟩, 0, 0, 0,
         ⟨1, 1, 1⟩, 2700⟩).velocity.x ≠
    (rigidBodyDynamics (1 / 60) 0 2000
        ⟨BodyType.sphere, ⟨0, 0, 0⟩, ⟨1, 0, 0⟩, ⟨0, 0, 0⟩, ⟨0, 0, 0⟩, 0, 0, 0,
         ⟨1, 1, 1⟩, 2700⟩).velocity.x := by
  have h1 : min ((1000 : ℝ) / 1000) 2 = 1 := by norm_num [min_def]
  have h2 : min ((2000 : ℝ) / 1000) 2 = 2 := by norm_num [min_def]
  simp only [rigidBodyDynamics, h1, h2, V3.smul]
  norm_num

/-- C8 (amended): on each per-step rigid-body update the vertical velocity
is first incremented by `gravity · (1 − 0.8·(ρf/ρb)) · dt` (buoyancy-scaled
gravity), and the fluid density then also enters through the drag factor
`min(ρf/1000, 2)` that rescales the whole velocity; buoyancy and drag are
the only fluid channels in the body's own dynamics (no per-particle force
is read), and this prefix leaves angular velocity, rotation, size and
density untouched. -/
theorem buoyancy_gravity_C8_amended (dt gravity fluidDensity : ℝ) (b : Body)
    (hρ : 0 < b.density) :
    (rigidBodyDynamics dt gravity fluidDensity b).velocity.y =
      (b.velocity.y + gravity * (1 - 0.8 * (fluidDensity / b.density)) * dt) *
        (1 - 0.01 * min (fluidDensity / 1000) 2 * dt * 60) ∧
    (rigidBodyDynamics dt gravity fluidDensity b).velocity.x =
      b.velocity.x * (1 - 0.01 * min (fluidDensity / 1000) 2 * dt * 60) ∧
    (rigidBodyDynamics dt gravity fluidDensity b).velocity.z =
      b.velocity.z * (1 - 0.01 * min (fluidDensity / 1000) 2 * dt * 60) ∧
    (rigidBodyDynamics dt gravity fluidDensity b).position =
      V3.add b.position (V3.smul dt (rigidBodyDynamics dt gravity fluidDensity b).velocity) ∧
    (rigidBodyDynamics dt gravity fluidDensity b).angularVelocity = b.angularVelocity ∧
    (rigidBodyDynamics dt gravity fluidDensity b).physicalRotation = b.physicalRotation ∧
    (rigidBodyDynamics dt gravity fluidDensity b).size = b.size ∧
    (rigidBodyDynamics dt gravity fluidDensity b).density = b.density := by
  refine ⟨?_, ?_, ?_, rfl, rfl, rfl, rfl, rfl⟩ <;>
    (simp only [rigidBodyDynamics, V3.smul]; ring)

/-- Witness for C8 (amended) at a concrete body of density `2700` in fluid
of density `1000` under gravity `-9.8`. -/
theorem buoyancy_gravity_C8_amended_witness :
    (0 : ℝ) < 2700 ∧
    (rigidBodyDynamics (1 / 60) (-(98 / 10)) 1000
        ⟨BodyType.sphere, ⟨0, 0, 0⟩, ⟨1, 2, 3⟩, ⟨0, 0, 0⟩, ⟨0, 0, 0⟩, 0, 0, 0,
         ⟨1, 1, 1⟩, 2700⟩).velocity.y =
      (2 + -(98 / 10) * (1 - 0.8 * (1000 / 2700)) * (1 / 60)) *
        (1 - 0.01 * min ((1000 : ℝ) / 1000) 2 * (1 / 60) * 60) := by
  refine ⟨by norm_num, ?_⟩
  have h := (buoyancy_gravity_C8_amended (1 / 60) (-(98 / 10)) 1000
    ⟨BodyType.sphere, ⟨0, 0, 0⟩, ⟨1, 2, 3⟩, ⟨0, 0, 0⟩, ⟨0, 0, 0⟩, 0, 0, 0,
     ⟨1, 1, 1⟩, 2700⟩ (by norm_num)).1
  exact h

/-! Section: Rigid-rigid pairwise collision
(`RigidBody.checkObjectCollisions`, RigidBody.js lines 108–196) -/

/-- The per-shape effective collision radius of `checkObjectCollisions`:
exact for sphere/torus/hollow-sphere, `1.2·size.x` for the cylinder family,
and `0.6·|size|` (diagonal approximation) for boxes. -/
def effectiveCollisionRadius (b : Body) : ℝ :=
  if b.type = BodyType.sphere ∨ b.type = BodyType.torus ∨ b.type = BodyType.hollowSphere then
    b.size.x
  else if b.type = BodyType.cylinder ∨ b.type = BodyType.cone ∨
      b.type = BodyType.hollowCylinder ∨ b.type = BodyType.boat then
    b.size.x * 1.2
  else
    b.size.length * 0.6

/-- The body of the `allBodies.forEach` loop of
`RigidBody.checkObjectCollisions` for one pair `(this, other) = (a, b)`:
separation in proportion to relative speeds, impulse with restitution `0.4`
split evenly, tangential friction, angular damping and a small torque on
`this`. Returns the updated `(this, other)` pair. -/
def resolvePair (a b : Body) : Body × Body :=
  let diff := V3.sub a.position b.position
  let distance := diff.length
  if distance < 0.001 then (a, b)
  else
    let thisRadius := effectiveCollisionRadius a
    let otherRadius := effectiveCollisionRadius b
    let minDistance := thisRadius + otherRadius
    if distance < minDistance then
      let normal := diff.normalize
      let overlap := minDistance - distance
      let totalVel := a.velocity.length + b.velocity.length
      let thisRatio := if totalVel > 0 then a.velocity.length / totalVel else 0.5
      let otherRatio := 1 - thisRatio
      let aPos := V3.add a.position (V3.smul (overlap * thisRatio) normal)
      let bPos := V3.add b.position (V3.smul (-overlap * otherRatio) normal)
      let relativeVel := V3.sub a.velocity b.velocity
      let velocityAlongNormal := V3.dot relativeVel normal
      if velocityAlongNormal < 0 ∨ overlap > 0.1 then
        let restitution : ℝ := 0.4
        let j := -(1 + restitution) * velocityAlongNormal
        let impulse := V3.smul (j * 0.5) normal
        let aVel1 := V3.add a.velocity impulse
        let bVel1 := V3.sub b.velocity impulse
        let tangent := V3.sub relativeVel (V3.smul velocityAlongNormal normal)
        let frictionMagnitude := tangent.length * 0.3
        let aVel2 := if frictionMagnitude > 0.001 then
            V3.add aVel1 (V3.smul (-frictionMagnitude * 0.5) tangent.normalize)
          else aVel1
        let bVel2 := if frictionMagnitude > 0.001 then
            V3.sub bVel1 (V3.smul (-frictionMagnitude * 0.5) tangent.normalize)
          else bVel1
        let torqueAxis := V3.cross normal relativeVel
        let aAng := V3.add (V3.smul 0.7 a.angularVelocity) (V3.smul 0.01 torqueAxis)
        let bAng := V3.smul 0.7 b.angularVelocity
        ({ a with position := aPos, velocity := aVel2, angularVelocity := aAng },
         { b with
        position := bPos, velocity := bVel2, angularVelocity := bAng })
      else
        ({ a with position := aPos }, { b with
        position := bPos })
    else (a, b)

theorem head_on_van (d : V3) (s : ℝ) (hL : 0 < d.length) :
    V3.dot (V3.sub (V3.smul (-(s / d.length)) d) (V3.smul (s / d.length) d)) d.normalize
      = -(2 * s) := by
  have hsq := V3.sq_length d
  simp only [V3.dot, V3.sub, V3.smul, V3.normalize]
  field_simp
  linear_combination (2 * s * d.length) * hsq

/-- C5: two overlapping rigid spheres of equal density and equal radius
approaching head-on with speeds `s` and `−s` along the line of centres (no
other velocity components, zero angular velocity): after the pairwise
collision resolution their velocities point away from each other along the
collision axis, each of magnitude `0.4·s` (the fixed restitution
coefficient times the approach speed). -/
theorem head_on_restitution_C5 (pA pB : V3) (r s ρ : ℝ)
    (hdist : 0.001 ≤ (V3.sub pA pB).length)
    (hover : (V3.sub pA pB).length < r + r) (hs : 0 < s) :
    (resolvePair
        ⟨BodyType.sphere, pA,
          V3.smul (-(s / (V3.sub pA pB).length)) (V3.sub pA pB),
          ⟨0, 0, 0⟩, ⟨0, 0, 0⟩, 0, 0, 0, ⟨r, r, r⟩, ρ⟩
        ⟨BodyType.sphere, pB,
          V3.smul (s / (V3.sub pA pB).length) (V3.sub pA pB),
          ⟨0, 0, 0⟩, ⟨0, 0, 0⟩, 0, 0, 0, ⟨r, r, r⟩, ρ⟩).1.velocity
      = V3.smul (0.4 * s / (V3.sub pA pB).length) (V3.sub pA pB) ∧
    (resolvePair
        ⟨BodyType.sphere, pA,
          V3.smul (-(s / (V3.sub pA pB).length)) (V3.sub pA pB),
          ⟨0, 0, 0⟩, ⟨0, 0, 0⟩, 0, 0, 0, ⟨r, r, r⟩, ρ⟩
        ⟨BodyType.sphere, pB,
          V3.smul (s / (V3.sub pA pB).length) (V3.sub pA pB),
          ⟨0, 0, 0⟩, ⟨0, 0, 0⟩, 0, 0, 0, ⟨r, r, r⟩, ρ⟩).2.velocity
      = V3.smul (-(0.4 * s / (V3.sub pA pB).length)) (V3.sub pA pB) ∧
    (resolvePair
        ⟨BodyType.sphere, pA,
          V3.smul (-(s / (V3.sub pA pB).length)) (V3.sub pA pB),
          ⟨0, 0, 0⟩, ⟨0, 0, 0⟩, 0, 0, 0, ⟨r, r, r⟩, ρ⟩
        ⟨BodyType.sphere, pB,
          V3.smul (s / (V3.sub pA pB).length) (V3.sub pA pB),
          ⟨0, 0, 0⟩, ⟨0, 0, 0⟩, 0, 0, 0, ⟨r, r, r⟩, ρ⟩).1.velocity.length
      = 0.4 * s ∧
    (resolvePair
        ⟨BodyType.sphere, pA,
          V3.smul (-(s / (V3.sub pA pB).length)) (V3.sub pA pB),
          ⟨0, 0, 0⟩, ⟨0, 0, 0⟩, 0, 0, 0, ⟨r, r, r⟩, ρ⟩
        ⟨BodyType.sphere, pB,
          V3.smul (s / (V3.sub pA pB).length) (V3.sub pA pB),
          ⟨0, 0, 0⟩, ⟨0, 0, 0⟩, 0, 0, 0, ⟨r, r, r⟩, ρ⟩).2.velocity.length
      = 0.4 * s := by
  have hL0 : 0 < (V3.sub pA pB).length := lt_of_lt_of_le (by norm_num) hdist
  have hvan := head_on_van (V3.sub pA pB) s hL0
  have hra : effectiveCollisionRadius
      ⟨BodyType.sphere, pA, V3.smul (-(s / (V3.sub pA pB).length)) (V3.sub pA pB),
       ⟨0, 0, 0⟩, ⟨0, 0, 0⟩, 0, 0, 0, ⟨r, r, r⟩, ρ⟩ = r := rfl
  have hrb : effectiveCollisionRadius
      ⟨BodyType.sphere, pB, V3.smul (s / (V3.sub pA pB).length) (V3.sub pA pB),
       ⟨0, 0, 0⟩, ⟨0, 0, 0⟩, 0, 0, 0, ⟨r, r, r⟩, ρ⟩ = r := rfl
  have hv1 : V3.add (V3.smul (-(s / (V3.sub pA pB).length)) (V3.sub pA pB))
      (V3.smul (-(1 + 0.4) * -(2 * s) * 0.5) (V3.sub pA pB).normalize)
      = V3.smul (0.4 * s / (V3.sub pA pB).length) (V3.sub pA pB) := by
    simp only [V3.add, V3.smul, V3.normalize, V3.mk.injEq]
    refine ⟨by ring, by ring, by ring⟩
  have hv2 : V3.sub (V3.smul (s / (V3.sub pA pB).length) (V3.sub pA pB))
      (V3.smul (-(1 + 0.4) * -(2 * s) * 0.5) (V3.sub pA pB).normalize)
      = V3.smul (-(0.4 * s / (V3.sub pA pB).length)) (V3.sub pA pB) := by
    simp only [V3.sub, V3.smul, V3.normalize, V3.mk.injEq]
    refine ⟨by ring, by ring, by ring⟩
  have htan : V3.sub (V3.sub (V3.smul (-(s / (V3.sub pA pB).length)) (V3.sub pA pB))
      (V3.smul (s / (V3.sub pA pB).length) (V3.sub pA pB)))
      (V3.smul (-(2 * s)) (V3.sub pA pB).normalize) = V3.zero := by
    simp only [V3.sub, V3.smul, V3.normalize, V3.zero, V3.mk.injEq]
    refine ⟨by ring, by ring, by ring⟩
  have hzl : (V3.zero).length = 0 := by
    simp [V3.zero, V3.length]
  have habs : 0 < 0.4 * s / (V3.sub pA pB).length := by positivity
  simp only [resolvePair]
  rw [if_neg (not_lt.mpr hdist), hra, hrb]
  rw [if_pos hover, hvan]
  rw [if_pos (Or.inl (by linarith : -(2 * s) < (0 : ℝ)))]
  rw [htan, hzl]
  simp only [if_neg (by norm_num : ¬ ((0 : ℝ) * 0.3 > 0.001))]
  refine ⟨hv1, hv2, ?_, ?_⟩
  · rw [hv1, V3.length_smul, abs_of_pos habs, div_mul_cancel₀ _ hL0.ne']
  · rw [hv2, V3.length_smul, abs_neg, abs_of_pos habs, div_mul_cancel₀ _ hL0.ne']

/-- Witness for C5: two spheres of radius `3` and density `2700`, centres at
`(3,4,0)` and the origin (distance `5`, overlapping), closing at unit speed
each: the resolved speeds are `0.4` each. -/
theorem head_on_restitution_C5_witness :
    ((0.001 : ℝ) ≤ (V3.sub ⟨3, 4, 0⟩ (⟨0, 0, 0⟩ : V3)).length ∧
     (V3.sub ⟨3, 4, 0⟩ (⟨0, 0, 0⟩ : V3)).length < 3 + 3 ∧ (0 : ℝ) < 1) ∧
    (resolvePair
        ⟨BodyType.sphere, ⟨3, 4, 0⟩,
          V3.smul (-(1 / (V3.sub ⟨3, 4, 0⟩ (⟨0, 0, 0⟩ : V3)).length))
            (V3.sub ⟨3, 4, 0⟩ ⟨0, 0, 0⟩),
          ⟨0, 0, 0⟩, ⟨0, 0, 0⟩, 0, 0, 0, ⟨3, 3, 3⟩, 2700⟩
        ⟨BodyType.sphere, ⟨0, 0, 0⟩,
          V3.smul (1 / (V3.sub ⟨3, 4, 0⟩ (⟨0, 0, 0⟩ : V3)).length)
            (V3.sub ⟨3, 4, 0⟩ ⟨0, 0, 0⟩),
          ⟨0, 0, 0⟩, ⟨0, 0, 0⟩, 0, 0, 0, ⟨3, 3, 3⟩, 2700⟩).1.velocity.length = 0.4 * 1 ∧
    (resolvePair
        ⟨BodyType.sphere, ⟨3, 4, 0⟩,
          V3.smul (-(1 / (V3.sub ⟨3, 4, 0⟩ (⟨0, 0, 0⟩ : V3)).length))
            (V3.sub ⟨3, 4, 0⟩ ⟨0, 0, 0⟩),
          ⟨0, 0, 0⟩, ⟨0, 0, 0⟩, 0, 0, 0, ⟨3, 3, 3⟩, 2700⟩
        ⟨BodyType.sphere, ⟨0, 0, 0⟩,
          V3.smul (1 / (V3.sub ⟨3, 4, 0⟩ (⟨0, 0, 0⟩ : V3)).length)
            (V3.sub ⟨3, 4, 0⟩ ⟨0, 0, 0⟩),
          ⟨0, 0, 0⟩, ⟨0, 0, 0⟩, 0, 0, 0, ⟨3, 3, 3⟩, 2700⟩).2.velocity.length = 0.4 * 1 := by
  have hlen : (V3.sub ⟨3, 4, 0⟩ (⟨0, 0, 0⟩ : V3)).length = 5 := by
    simp only [V3.sub, V3.length]
    exact sqrt_cancel _ _ (by norm_num) (by norm_num)
  have h1 : (0.001 : ℝ) ≤ (V3.sub ⟨3, 4, 0⟩ (⟨0, 0, 0⟩ : V3)).length := by
    rw [hlen]; norm_num
  have h2 : (V3.sub ⟨3, 4, 0⟩ (⟨0, 0, 0⟩ : V3)).length < 3 + 3 := by
    rw [hlen]; norm_num
  have h := head_on_restitution_C5 ⟨3, 4, 0⟩ ⟨0, 0, 0⟩ 3 1 2700 h1 h2 (by norm_num)
  exact ⟨⟨h1, h2, by norm_num⟩, h.2.2.1, h.2.2.2⟩

/-! Section: Rigid-body boundary handling (`RigidBody.update`, RigidBody.js
lines 229–473). Boxes compute a per-axis effective radius by rotating the
eight corners of the oriented bounding box (`THREE.Vector3.applyEuler` with
the default 'XYZ' order, i.e. `v ↦ Rx·Ry·Rz·v`) and taking extrema. -/

/-- Rotation about the X axis. -/
def rotX (a : ℝ) (v : V3) : V3 :=
  ⟨v.x, Real.cos a * v.y - Real.sin a * v.z, Real.sin a * v.y + Real.cos a * v.z⟩

/-- Rotation about the Y axis. -/
def rotY (a : ℝ) (v : V3) : V3 :=
  ⟨Real.cos a * v.x + Real.sin a * v.z, v.y, -Real.sin a * v.x + Real.cos a * v.z⟩

/-- Rotation about the Z axis. -/
def rotZ (a : ℝ) (v : V3) : V3 :=
  ⟨Real.cos a * v.x - Real.sin a * v.y, Real.sin a * v.x + Real.cos a * v.y, v.z⟩

/-- Model of `THREE.Vector3.applyEuler` for an Euler angle in the default 'XYZ'
order. -/
def applyEulerXYZ (ax ay az : ℝ) (v : V3) : V3 := rotX ax (rotY ay (rotZ az v))

/-- Degrees to radians, as the source's `(deg * Math.PI) / 180`. -/
def degToRad (d : ℝ) : ℝ := d * π / 180

/-- JavaScript `Math.round` (round half up): `⌊x + 0.5⌋`. -/
def jsRound (x : ℝ) : ℝ := (⌊x + 0.5⌋ : ℤ)

/-- The smallest `y` over the eight rotated corners of the box with the
given half extents (the `newMinY` recomputation in the box settling
branch). -/
def boxMinY (halfSize : V3) (ax ay az : ℝ) : ℝ :=
  let c1 := applyEulerXYZ ax ay az ⟨-halfSize.x, -halfSize.y, -halfSize.z⟩
  let c2 := applyEulerXYZ ax ay az ⟨halfSize.x, -halfSize.y, -halfSize.z⟩
  let c3 := applyEulerXYZ ax ay az ⟨-halfSize.x, halfSize.y, -halfSize.z⟩
  let c4 := applyEulerXYZ ax ay az ⟨halfSize.x, halfSize.y, -halfSize.z⟩
  let c5 := applyEulerXYZ ax ay az ⟨-halfSize.x, -halfSize.y, halfSize.z⟩
  let c6 := applyEulerXYZ ax ay az ⟨halfSize.x, -halfSize.y, halfSize.z⟩
  let c7 := applyEulerXYZ ax ay az ⟨-halfSize.x, halfSize.y, halfSize.z⟩
  let c8 := applyEulerXYZ ax ay az ⟨halfSize.x, halfSize.y, halfSize.z⟩
  min c1.y (min c2.y (min c3.y (min c4.y (min c5.y (min c6.y (min c7.y c8.y))))))

/-- The per-axis effective radius of a rotated box: rotate the eight
corners, take per-axis minima and maxima, and use the larger absolute
extent on each axis. -/
def boxEffectiveRadius (halfSize : V3) (ax ay az : ℝ) : V3 :=
  let c1 := applyEulerXYZ ax ay az ⟨-halfSize.x, -halfSize.y, -halfSize.z⟩
  let c2 := applyEulerXYZ ax ay az ⟨halfSize.x, -halfSize.y, -halfSize.z⟩
  let c3 := applyEulerXYZ ax ay az ⟨-halfSize.x, halfSize.y, -halfSize.z⟩
  let c4 := applyEulerXYZ ax ay az ⟨halfSize.x, halfSize.y, -halfSize.z⟩
  let c5 := applyEulerXYZ ax ay az ⟨-halfSize.x, -halfSize.y, halfSize.z⟩
  let c6 := applyEulerXYZ ax ay az ⟨halfSize.x, -halfSize.y, halfSize.z⟩
  let c7 := applyEulerXYZ ax ay az ⟨-halfSize.x, halfSize.y, halfSize.z⟩
  let c8 := applyEulerXYZ ax ay az ⟨halfSize.x, halfSize.y, halfSize.z⟩
  let minX := min c1.x (min c2.x (min c3.x (min c4.x (min c5.x (min c6.x (min c7.x c8.x))))))
  let maxX := max c1.x (max c2.x (max c3.x (max c4.x (max c5.x (max c6.x (max c7.x c8.x))))))
  let minY := min c1.y (min c2.y (min c3.y (min c4.y (min c5.y (min c6.y (min c7.y c8.y))))))
  let maxY := max c1.y (max c2.y (max c3.y (max c4.y (max c5.y (max c6.y (max c7.y c8.y))))))
  let minZ := min c1.z (min c2.z (min c3.z (min c4.z (min c5.z (min c6.z (min c7.z c8.z))))))
  let maxZ := max c1.z (max c2.z (max c3.z (max c4.z (max c5.z (max c6.z (max c7.z c8.z))))))
  ⟨max |minX| |maxX|, max |minY| |maxY|, max |minZ| |maxZ|⟩

/-- The effective radius vector the boundary code of `RigidBody.update`
uses for a box-family body, computed from its current total rotation
(user-set degrees plus accumulated physics rotation). -/
def rbEffR (b : Body) : V3 :=
  boxEffectiveRadius (V3.smul 0.5 b.size)
    (degToRad b.rotationX + b.physicalRotation.x)
    (degToRad b.rotationY + b.physicalRotation.y)
    (degToRad b.rotationZ + b.physicalRotation.z)

theorem boxEffectiveRadius_nonneg_x (halfSize : V3) (ax ay az : ℝ) :
    0 ≤ (boxEffectiveRadius halfSize ax ay az).x :=
  le_trans (abs_nonneg _) (le_max_left _ _)

theorem boxEffectiveRadius_nonneg_y (halfSize : V3) (ax ay az : ℝ) :
    0 ≤ (boxEffectiveRadius halfSize ax ay az).y :=
  le_trans (abs_nonneg _) (le_max_left _ _)

theorem boxEffectiveRadius_nonneg_z (halfSize : V3) (ax ay az : ℝ) :
    0 ≤ (boxEffectiveRadius halfSize ax ay az).z :=
  le_trans (abs_nonneg _) (le_max_left _ _)

/-- The bottom-wall block of `RigidBody.update` (lines 282–410): round
shapes clamp on a scalar radius with an impact-torque kick and friction;
the cylinder family additionally snaps its rotation toward the nearest 90°
when settling; boxes clamp on the rotated effective radius, snap all three
rotation axes when settling, recompute the effective extent for the new
rotation, and re-clamp. -/
def rbBottom (bMin : V3) (radius : ℝ) (halfSize effR : V3) (b : Body) : Body :=
  if b.type = BodyType.sphere ∨ b.type = BodyType.torus ∨ b.type = BodyType.hollowSphere then
    if b.position.y - radius < bMin.y then
      let impactForce := |b.velocity.y|
      let av1 := if impactForce > 0.1 then
          (⟨b.angularVelocity.x + b.velocity.z * 0.3, b.angularVelocity.y,
            b.angularVelocity.z - b.velocity.x * 0.3⟩ : V3)
        else b.angularVelocity
      { b with
        position := ⟨b.position.x, bMin.y + radius, b.position.z⟩,
        velocity := ⟨b.velocity.x * 0.8, -b.velocity.y * 0.2, b.velocity.z * 0.8⟩,
        angularVelocity := V3.smul 0.85 av1 }
    else b
  else if b.type = BodyType.cylinder ∨ b.type = BodyType.cone ∨
      b.type = BodyType.hollowCylinder ∨ b.type = BodyType.boat then
    if b.position.y - radius < bMin.y then
      let impactForce := |b.velocity.y|
      let av1 := if impactForce > 0.1 then
          (⟨b.angularVelocity.x + b.velocity.z * 0.3, b.angularVelocity.y,
            b.angularVelocity.z - b.velocity.x * 0.3⟩ : V3)
        else b.angularVelocity
      let v1 : V3 := ⟨b.velocity.x * 0.8, -b.velocity.y * 0.2, b.velocity.z * 0.8⟩
      let av2 := V3.smul 0.85 av1
      if v1.length < 0.5 ∧ |av2.length| < 1.0 then
        let totalRotX := degToRad b.rotationX + b.physicalRotation.x
        let totalRotZ := degToRad b.rotationZ + b.physicalRotation.z
        let snapAngle := π / 2
        let targetRotX := jsRound (totalRotX / snapAngle) * snapAngle
        let targetRotZ := jsRound (totalRotZ / snapAngle) * snapAngle
        { b with
        position := ⟨b.position.x, bMin.y + radius, b.position.z⟩,
          velocity := v1,
          angularVelocity := V3.smul 0.5 av2,
          physicalRotation := ⟨b.physicalRotation.x + (targetRotX - totalRotX) * 0.1,
            b.physicalRotation.y,
            b.physicalRotation.z + (targetRotZ - totalRotZ) * 0.1⟩ }
      else
        { b with
        position := ⟨b.position.x, bMin.y + radius, b.position.z⟩,
          velocity := v1, angularVelocity := av2 }
    else b
  else
    if b.position.y - effR.y < bMin.y then
      let impactForce := |b.velocity.y|
      let av1 := if impactForce > 0.1 then
          (⟨b.angularVelocity.x + b.velocity.z * 0.5, b.angularVelocity.y,
            b.angularVelocity.z - b.velocity.x * 0.5⟩ : V3)
        else b.angularVelocity
      let v1 : V3 := ⟨b.velocity.x * 0.8, -b.velocity.y * 0.2, b.velocity.z * 0.8⟩
      let av2 := V3.smul 0.7 av1
      if v1.length < 0.5 ∧ |av2.length| < 1.0 then
        let totalRotX := degToRad b.rotationX + b.physicalRotation.x
        let totalRotY := degToRad b.rotationY + b.physicalRotation.y
        let totalRotZ := degToRad b.rotationZ + b.physicalRotation.z
        let snapAngle := π / 2
        let targetRotX := jsRound (totalRotX / snapAngle) * snapAngle
        let targetRotY := jsRound (totalRotY / snapAngle) * snapAngle
        let targetRotZ := jsRound (totalRotZ / snapAngle) * snapAngle
        let pr2 : V3 := ⟨b.physicalRotation.x + (targetRotX - totalRotX) * 0.1,
          b.physicalRotation.y + (targetRotY - totalRotY) * 0.1,
          b.physicalRotation.z + (targetRotZ - totalRotZ) * 0.1⟩
        let newEffY := |boxMinY halfSize (degToRad b.rotationX + pr2.x)
          (degToRad b.rotationY + pr2.y) (degToRad b.rotationZ + pr2.z)|
        let py := if bMin.y + effR.y - newEffY < bMin.y then bMin.y + newEffY
          else bMin.y + effR.y
        { b with
        position := ⟨b.position.x, py, b.position.z⟩,
          velocity := v1,
          angularVelocity := V3.smul 0.5 av2,
          physicalRotation := pr2 }
      else
        { b with
        position := ⟨b.position.x, bMin.y + effR.y, b.position.z⟩,
          velocity := v1, angularVelocity := av2 }
    else b

/-- The top-wall block of `RigidBody.update` (lines 412–423). -/
def rbTop (bMax : V3) (radius : ℝ) (effR : V3) (b : Body) : Body :=
  if b.type = BodyType.sphere ∨ b.type = BodyType.cylinder ∨ b.type = BodyType.torus ∨
      b.type = BodyType.cone ∨ b.type = BodyType.hollowSphere ∨
      b.type = BodyType.hollowCylinder ∨ b.type = BodyType.boat then
    if b.position.y + radius > bMax.y then
      { b with
        position := ⟨b.position.x, bMax.y - radius, b.position.z⟩,
        velocity := ⟨b.velocity.x, -b.velocity.y * 0.2, b.velocity.z⟩ }
    else b
  else
    if b.position.y + effR.y > bMax.y then
      { b with
        position := ⟨b.position.x, bMax.y - effR.y, b.position.z⟩,
        velocity := ⟨b.velocity.x, -b.velocity.y * 0.2, b.velocity.z⟩ }
    else b

/-- The low-X wall block of `RigidBody.update` (lines 426–448, first
half). -/
def rbSideXMin (bMin : V3) (radius : ℝ) (effR : V3) (b : Body) : Body :=
  if b.type = BodyType.sphere ∨ b.type = BodyType.cylinder ∨ b.type = BodyType.torus ∨
      b.type = BodyType.cone ∨ b.type = BodyType.hollowSphere ∨
      b.type = BodyType.hollowCylinder ∨ b.type = BodyType.boat then
    if b.position.x - radius < bMin.x then
      { b with
        position := ⟨bMin.x + radius, b.position.y, b.position.z⟩,
        angularVelocity := ⟨b.angularVelocity.x, b.angularVelocity.y,
          b.angularVelocity.z + b.velocity.y * 0.2⟩,
        velocity := ⟨-b.velocity.x * 0.3, b.velocity.y, b.velocity.z⟩ }
    else b
  else
    if b.position.x - effR.x < bMin.x then
      { b with
        position := ⟨bMin.x + effR.x, b.position.y, b.position.z⟩,
        angularVelocity := ⟨b.angularVelocity.x, b.angularVelocity.y,
          b.angularVelocity.z + b.velocity.y * 0.3⟩,
        velocity := ⟨-b.velocity.x * 0.3, b.velocity.y, b.velocity.z⟩ }
    else b

/-- The high-X wall block of `RigidBody.update` (lines 426–448, second
half). -/
def rbSideXMax (bMax : V3) (radius : ℝ) (effR : V3) (b : Body) : Body :=
  if b.type = BodyType.sphere ∨ b.type = BodyType.cylinder ∨ b.type = BodyType.torus ∨
      b.type = BodyType.cone ∨ b.type = BodyType.hollowSphere ∨
      b.type = BodyType.hollowCylinder ∨ b.type = BodyType.boat then
    if b.position.x + radius > bMax.x then
      { b with
        position := ⟨bMax.x - radius, b.position.y, b.position.z⟩,
        angularVelocity := ⟨b.angularVelocity.x, b.angularVelocity.y,
          b.angularVelocity.z - b.velocity.y * 0.2⟩,
        velocity := ⟨-b.velocity.x * 0.3, b.velocity.y, b.velocity.z⟩ }
    else b
  else
    if b.position.x + effR.x > bMax.x then
      { b with
        position := ⟨bMax.x - effR.x, b.position.y, b.position.z⟩,
        angularVelocity := ⟨b.angularVelocity.x, b.angularVelocity.y,
          b.angularVelocity.z - b.velocity.y * 0.3⟩,
        velocity := ⟨-b.velocity.x * 0.3, b.velocity.y, b.velocity.z⟩ }
    else b

/-- The low-Z wall block of `RigidBody.update` (lines 451–473, first
half). -/
def rbSideZMin (bMin : V3) (radius : ℝ) (effR : V3) (b : Body) : Body :=
  if b.type = BodyType.sphere ∨ b.type = BodyType.cylinder ∨ b.type = BodyType.torus ∨
      b.type = BodyType.cone ∨ b.type = BodyType.hollowSphere ∨
      b.type = BodyType.hollowCylinder ∨ b.type = BodyType.boat then
    if b.position.z - radius < bMin.z then
      { b with
        position := ⟨b.position.x, b.position.y, bMin.z + radius⟩,
        angularVelocity := ⟨b.angularVelocity.x - b.velocity.y * 0.2,
          b.angularVelocity.y, b.angularVelocity.z⟩,
        velocity := ⟨b.velocity.x, b.velocity.y, -b.velocity.z * 0.3⟩ }
    else b
  else
    if b.position.z - effR.z < bMin.z then
      { b with
        position := ⟨b.position.x, b.position.y, bMin.z + effR.z⟩,
        angularVelocity := ⟨b.angularVelocity.x - b.velocity.y * 0.3,
          b.angularVelocity.y, b.angularVelocity.z⟩,
        velocity := ⟨b.velocity.x, b.velocity.y, -b.velocity.z * 0.3⟩ }
    else b

/-- The high-Z wall block of `RigidBody.update` (lines 451–473, second
half). -/
def rbSideZMax (bMax : V3) (radius : ℝ) (effR : V3) (b : Body) : Body :=
  if b.type = BodyType.sphere ∨ b.type = BodyType.cylinder ∨ b.type = BodyType.torus ∨
      b.type = BodyType.cone ∨ b.type = BodyType.hollowSphere ∨
      b.type = BodyType.hollowCylinder ∨ b.type = BodyType.boat then
    if b.position.z + radius > bMax.z then
      { b with
        position := ⟨b.position.x, b.position.y, bMax.z - radius⟩,
        angularVelocity := ⟨b.angularVelocity.x + b.velocity.y * 0.2,
          b.angularVelocity.y, b.angularVelocity.z⟩,
        velocity := ⟨b.velocity.x, b.velocity.y, -b.velocity.z * 0.3⟩ }
    else b
  else
    if b.position.z + effR.z > bMax.z then
      { b with
        position := ⟨b.position.x, b.position.y, bMax.z - effR.z⟩,
        angularVelocity := ⟨b.angularVelocity.x + b.velocity.y * 0.3,
          b.angularVelocity.y, b.angularVelocity.z⟩,
        velocity := ⟨b.velocity.x, b.velocity.y, -b.velocity.z * 0.3⟩ }
    else b

/-- The whole boundary-collision section of `RigidBody.update`: effective
radii are computed once from the incoming state (as the source does before
the wall blocks), then the bottom, top, X and Z blocks run in source
order. -/
def rigidBodyBoundary (bMin bMax : V3) (b : Body) : Body :=
  let radius := b.size.x
  let halfSize := V3.smul 0.5 b.size
  let effR := rbEffR b
  rbSideZMax bMax radius effR
    (rbSideZMin bMin radius effR
      (rbSideXMax bMax radius effR
        (rbSideXMin bMin radius effR
          (rbTop bMax radius effR
            (rbBottom bMin radius halfSize effR b)))))

theorem rbBottom_pres_x (bMin : V3) (radius : ℝ) (halfSize effR : V3) (b : Body) :
    (rbBottom bMin radius halfSize effR b).position.x = b.position.x := by
  simp only [rbBottom]; split_ifs <;> rfl

theorem rbBottom_pres_z (bMin : V3) (radius : ℝ) (halfSize effR : V3) (b : Body) :
    (rbBottom bMin radius halfSize effR b).position.z = b.position.z := by
  simp only [rbBottom]; split_ifs <;> rfl

theorem rbBottom_y_ge (bMin : V3) (radius : ℝ) (halfSize effR : V3) (b : Body)
    (h0 : 0 ≤ radius) (h1 : 0 ≤ effR.y) :
    bMin.y ≤ (rbBottom bMin radius halfSize effR b).position.y := by
  simp only [rbBottom]
  split_ifs <;>
    first
      | exact le_add_of_nonneg_right h0
      | exact le_add_of_nonneg_right h1
      | exact le_add_of_nonneg_right (abs_nonneg _)
      | linarith

theorem rbTop_pres_x (bMax : V3) (radius : ℝ) (effR : V3) (b : Body) :
    (rbTop bMax radius effR b).position.x = b.position.x := by
  simp only [rbTop]; split_ifs <;> rfl

theorem rbTop_pres_z (bMax : V3) (radius : ℝ) (effR : V3) (b : Body) :
    (rbTop bMax radius effR b).position.z = b.position.z := by
  simp only [rbTop]; split_ifs <;> rfl

theorem rbTop_y_le (bMax : V3) (radius : ℝ) (effR : V3) (b : Body)
    (h0 : 0 ≤ radius) (h1 : 0 ≤ effR.y) :
    (rbTop bMax radius effR b).position.y ≤ bMax.y := by
  simp only [rbTop]
  split_ifs <;>
    first
      | exact sub_le_self _ h0
      | exact sub_le_self _ h1
      | linarith

theorem rbTop_y_ge (bMin bMax : V3) (radius : ℝ) (effR : V3) (b : Body)
    (hin : bMin.y ≤ b.position.y) (hry : radius ≤ bMax.y - bMin.y)
    (hey : effR.y ≤ bMax.y - bMin.y) :
    bMin.y ≤ (rbTop bMax radius effR b).position.y := by
  simp only [rbTop]
  split_ifs <;>
    first
      | (show bMin.y ≤ bMax.y - radius; linarith)
      | (show bMin.y ≤ bMax.y - effR.y; linarith)
      | exact hin

theorem rbSideXMin_pres_y (bMin : V3) (radius : ℝ) (effR : V3) (b : Body) :
    (rbSideXMin bMin radius effR b).position.y = b.position.y := by
  simp only [rbSideXMin]; split_ifs <;> rfl

theorem rbSideXMin_pres_z (bMin : V3) (radius : ℝ) (effR : V3) (b : Body) :
    (rbSideXMin bMin radius effR b).position.z = b.position.z := by
  simp only [rbSideXMin]; split_ifs <;> rfl

theorem rbSideXMin_x_ge (bMin : V3) (radius : ℝ) (effR : V3) (b : Body)
    (h0 : 0 ≤ radius) (h1 : 0 ≤ effR.x) :
    bMin.x ≤ (rbSideXMin bMin radius effR b).position.x := by
  simp only [rbSideXMin]
  split_ifs <;>
    first
      | exact le_add_of_nonneg_right h0
      | exact le_add_of_nonneg_right h1
      | linarith

theorem rbSideXMax_pres_y (bMax : V3) (radius : ℝ) (effR : V3) (b : Body) :
    (rbSideXMax bMax radius effR b).position.y = b.position.y := by
  simp only [rbSideXMax]; split_ifs <;> rfl

theorem rbSideXMax_pres_z (bMax : V3) (radius : ℝ) (effR : V3) (b : Body) :
    (rbSideXMax bMax radius effR b).position.z = b.position.z := by
  simp only [rbSideXMax]; split_ifs <;> rfl

theorem rbSideXMax_x_le (bMax : V3) (radius : ℝ) (effR : V3) (b : Body)
    (h0 : 0 ≤ radius) (h1 : 0 ≤ effR.x) :
    (rbSideXMax bMax radius effR b).position.x ≤ bMax.x := by
  simp only [rbSideXMax]
  split_ifs <;>
    first
      | exact sub_le_self _ h0
      | exact sub_le_self _ h1
      | linarith

theorem rbSideXMax_x_ge (bMin bMax : V3) (radius : ℝ) (effR : V3) (b : Body)
    (hin : bMin.x ≤ b.position.x) (hrx : radius ≤ bMax.x - bMin.x)
    (hex : effR.x ≤ bMax.x - bMin.x) :
    bMin.x ≤ (rbSideXMax bMax radius effR b).position.x := by
  simp only [rbSideXMax]
  split_ifs <;>
    first
      | (show bMin.x ≤ bMax.x - radius; linarith)
      | (show bMin.x ≤ bMax.x - effR.x; linarith)
      | exact hin

theorem rbSideZMin_pres_x (bMin : V3) (radius : ℝ) (effR : V3) (b : Body) :
    (rbSideZMin bMin radius effR b).position.x = b.position.x := by
  simp only [rbSideZMin]; split_ifs <;> rfl

theorem rbSideZMin_pres_y (bMin : V3) (radius : ℝ) (effR : V3) (b : Body) :
    (rbSideZMin bMin radius effR b).position.y = b.position.y := by
  simp only [rbSideZMin]; split_ifs <;> rfl

theorem rbSideZMin_z_ge (bMin : V3) (radius : ℝ) (effR : V3) (b : Body)
    (h0 : 0 ≤ radius) (h1 : 0 ≤ effR.z) :
    bMin.z ≤ (rbSideZMin bMin radius effR b).position.z := by
  simp only [rbSideZMin]
  split_ifs <;>
    first
      | exact le_add_of_nonneg_right h0
      | exact le_add_of_nonneg_right h1
      | linarith

theorem rbSideZMax_pres_x (bMax : V3) (radius : ℝ) (effR : V3) (b : Body) :
    (rbSideZMax bMax radius effR b).position.x = b.position.x := by
  simp only [rbSideZMax]; split_ifs <;> rfl

theorem rbSideZMax_pres_y (bMax : V3) (radius : ℝ) (effR : V3) (b : Body) :
    (rbSideZMax bMax radius effR b).position.y = b.position.y := by
  simp only [rbSideZMax]; split_ifs <;> rfl

theorem rbSideZMax_z_le (bMax : V3) (radius : ℝ) (effR : V3) (b : Body)
    (h0 : 0 ≤ radius) (h1 : 0 ≤ effR.z) :
    (rbSideZMax bMax radius effR b).position.z ≤ bMax.z := by
  simp only [rbSideZMax]
  split_ifs <;>
    first
      | exact sub_le_self _ h0
      | exact sub_le_self _ h1
      | linarith

theorem rbSideZMax_z_ge (bMin bMax : V3) (radius : ℝ) (effR : V3) (b : Body)
    (hin : bMin.z ≤ b.position.z) (hrz : radius ≤ bMax.z - bMin.z)
    (hez : effR.z ≤ bMax.z - bMin.z) :
    bMin.z ≤ (rbSideZMax bMax radius effR b).position.z := by
  simp only [rbSideZMax]
  split_ifs <;>
    first
      | (show bMin.z ≤ bMax.z - radius; linarith)
      | (show bMin.z ≤ bMax.z - effR.z; linarith)
      | exact hin

/-- C1: after the particle boundary pass the particle's position lies in
`[boundMin, boundMax]` componentwise, and after the rigid-body boundary
handling of the per-step update the body's position lies in
`[boundMin, boundMax]` componentwise (no-escape invariant), provided the
bounds are ordered and the body's per-axis collision extent (its scalar
radius for the round families, the rotated-box effective radius for the box
family) is non-negative and fits inside the domain on every axis. -/
theorem boundary_no_escape_C1 (damping : ℝ) (bMin bMax p v : V3) (b : Body)
    (hxm : bMin.x ≤ bMax.x) (hym : bMin.y ≤ bMax.y) (hzm : bMin.z ≤ bMax.z)
    (hr0 : 0 ≤ b.size.x)
    (hrx : b.size.x ≤ bMax.x - bMin.x) (hry : b.size.x ≤ bMax.y - bMin.y)
    (hrz : b.size.x ≤ bMax.z - bMin.z)
    (hex : (rbEffR b).x ≤ bMax.x - bMin.x)
    (hey : (rbEffR b).y ≤ bMax.y - bMin.y)
    (hez : (rbEffR b).z ≤ bMax.z - bMin.z) :
    (bMin.x ≤ (handleBoundaryCollision damping bMin bMax p v).1.x ∧
     (handleBoundaryCollision damping bMin bMax p v).1.x ≤ bMax.x ∧
     bMin.y ≤ (handleBoundaryCollision damping bMin bMax p v).1.y ∧
     (handleBoundaryCollision damping bMin bMax p v).1.y ≤ bMax.y ∧
     bMin.z ≤ (handleBoundaryCollision damping bMin bMax p v).1.z ∧
     (handleBoundaryCollision damping bMin bMax p v).1.z ≤ bMax.z) ∧
    (bMin.x ≤ (rigidBodyBoundary bMin bMax b).position.x ∧
     (rigidBodyBoundary bMin bMax b).position.x ≤ bMax.x ∧
     bMin.y ≤ (rigidBodyBoundary bMin bMax b).position.y ∧
     (rigidBodyBoundary bMin bMax b).position.y ≤ bMax.y ∧
     bMin.z ≤ (rigidBodyBoundary bMin bMax b).position.z ∧
     (rigidBodyBoundary bMin bMax b).position.z ≤ bMax.z) := by
  refine ⟨handleBoundaryCollision_mem damping bMin bMax hxm hym hzm p v, ?_⟩
  have he0x : 0 ≤ (rbEffR b).x := boxEffectiveRadius_nonneg_x _ _ _ _
  have he0y : 0 ≤ (rbEffR b).y := boxEffectiveRadius_nonneg_y _ _ _ _
  have he0z : 0 ≤ (rbEffR b).z := boxEffectiveRadius_nonneg_z _ _ _ _
  have hstep : rigidBodyBoundary bMin bMax b =
      rbSideZMax bMax b.size.x (rbEffR b)
        (rbSideZMin bMin b.size.x (rbEffR b)
          (rbSideXMax bMax b.size.x (rbEffR b)
            (rbSideXMin bMin b.size.x (rbEffR b)
              (rbTop bMax b.size.x (rbEffR b)
                (rbBottom bMin b.size.x (V3.smul 0.5 b.size) (rbEffR b) b))))) := rfl
  rw [hstep]
  set b1 := rbBottom bMin b.size.x (V3.smul 0.5 b.size) (rbEffR b) b with hb1
  set b2 := rbTop bMax b.size.x (rbEffR b) b1 with hb2
  set b3 := rbSideXMin bMin b.size.x (rbEffR b) b2 with hb3
  set b4 := rbSideXMax bMax b.size.x (rbEffR b) b3 with hb4
  set b5 := rbSideZMin bMin b.size.x (rbEffR b) b4 with hb5
  have hy1 : bMin.y ≤ b1.position.y := rbBottom_y_ge _ _ _ _ _ hr0 he0y
  have hy2a : bMin.y ≤ b2.position.y := rbTop_y_ge _ _ _ _ _ hy1 hry hey
  have hy2b : b2.position.y ≤ bMax.y := rbTop_y_le _ _ _ _ hr0 he0y
  have hy5 : b5.position.y = b2.position.y := by
    rw [hb5, rbSideZMin_pres_y, hb4, rbSideXMax_pres_y, hb3, rbSideXMin_pres_y]
  have hx3 : bMin.x ≤ b3.position.x := rbSideXMin_x_ge _ _ _ _ hr0 he0x
  have hx4a : bMin.x ≤ b4.position.x := rbSideXMax_x_ge _ _ _ _ _ hx3 hrx hex
  have hx4b : b4.position.x ≤ bMax.x := rbSideXMax_x_le _ _ _ _ hr0 he0x
  have hx5 : b5.position.x = b4.position.x := by rw [hb5, rbSideZMin_pres_x]
  have hz5 : bMin.z ≤ b5.position.z := rbSideZMin_z_ge _ _ _ _ hr0 he0z
  refine ⟨?_, ?_, ?_, ?_, ?_, ?_⟩
  · rw [rbSideZMax_pres_x, hx5]; exact hx4a
  · rw [rbSideZMax_pres_x, hx5]; exact hx4b
  · rw [rbSideZMax_pres_y, hy5]; exact hy2a
  · rw [rbSideZMax_pres_y, hy5]; exact hy2b
  · exact rbSideZMax_z_ge _ _ _ _ _ hz5 hrz hez
  · exact rbSideZMax_z_le _ _ _ _ hr0 he0z

/-- Witness for C1 with the default domain `[-8,-5,-8] × [8,12,8]`: a
particle launched outside the box and an unrotated sphere body of radius
`1` high above the ceiling are both brought back inside. -/
theorem boundary_no_escape_C1_witness :
    ((V3.mk (-8 : ℝ) (-5) (-8)).x ≤ (V3.mk (8 : ℝ) 12 8).x ∧
     (0 : ℝ) ≤ (Body.mk BodyType.sphere ⟨0, 20, 0⟩ ⟨0, -3, 0⟩ ⟨0, 0, 0⟩ ⟨0, 0, 0⟩
       0 0 0 ⟨1, 1, 1⟩ 2700).size.x) ∧
    ((V3.mk (-8 : ℝ) (-5) (-8)).y ≤ (rigidBodyBoundary ⟨-8, -5, -8⟩ ⟨8, 12, 8⟩
        (Body.mk BodyType.sphere ⟨0, 20, 0⟩ ⟨0, -3, 0⟩ ⟨0, 0, 0⟩ ⟨0, 0, 0⟩
          0 0 0 ⟨1, 1, 1⟩ 2700)).position.y ∧
     (rigidBodyBoundary ⟨-8, -5, -8⟩ ⟨8, 12, 8⟩
        (Body.mk BodyType.sphere ⟨0, 20, 0⟩ ⟨0, -3, 0⟩ ⟨0, 0, 0⟩ ⟨0, 0, 0⟩
          0 0 0 ⟨1, 1, 1⟩ 2700)).position.y ≤ (V3.mk (8 : ℝ) 12 8).y ∧
     (V3.mk (-8 : ℝ) (-5) (-8)).y ≤
       (handleBoundaryCollision (3 / 5) ⟨-8, -5, -8⟩ ⟨8, 12, 8⟩ ⟨9, -6, 0⟩ ⟨1, -1, 1⟩).1.y ∧
     (handleBoundaryCollision (3 / 5) ⟨-8, -5, -8⟩ ⟨8, 12, 8⟩ ⟨9, -6, 0⟩ ⟨1, -1, 1⟩).1.y ≤
       (V3.mk (8 : ℝ) 12 8).y) := by
  have heff : rbEffR (Body.mk BodyType.sphere ⟨0, 20, 0⟩ ⟨0, -3, 0⟩ ⟨0, 0, 0⟩ ⟨0, 0, 0⟩
      0 0 0 ⟨1, 1, 1⟩ 2700) = ⟨1 / 2, 1 / 2, 1 / 2⟩ := by
    simp only [rbEffR, boxEffectiveRadius, applyEulerXYZ, rotX, rotY, rotZ, degToRad, V3.smul]
    norm_num [min_def, max_def, abs_of_nonneg, abs_of_nonpos]
  have h := boundary_no_escape_C1 (3 / 5) ⟨-8, -5, -8⟩ ⟨8, 12, 8⟩ ⟨9, -6, 0⟩ ⟨1, -1, 1⟩
    (Body.mk BodyType.sphere ⟨0, 20, 0⟩ ⟨0, -3, 0⟩ ⟨0, 0, 0⟩ ⟨0, 0, 0⟩ 0 0 0 ⟨1, 1, 1⟩ 2700)
    (by norm_num) (by norm_num) (by norm_num) (by norm_num) (by norm_num) (by norm_num)
    (by norm_num) (by rw [heff]; norm_num) (by rw [heff]; norm_num) (by rw [heff]; norm_num)
  exact ⟨⟨by norm_num, by norm_num⟩, h.2.2.2.1, h.2.2.2.2.1, h.1.2.2.1, h.1.2.2.2.1⟩
